import Mathlib

/-!
Verification of the `aws_cleaner` tool against its natural-language
specification.  The Python sources are shallowly embedded: every cleaner
module (`cleaner/ec2.py`, `cleaner/s3.py`, `cleaner/lambda_module.py`,
`cleaner/cloudformation.py`, `cleaner/rds.py`, `cleaner/vpc.py`,
`cleaner/iam.py`), the GUI orchestrator (`aws_cleanup_gui.py`) and the log
post-processor (`update_logging.py`) become pure Lean functions from an
environment (the resource descriptors the AWS API would return) to the
ordered list of AWS API calls (resp. file operations) they issue.  The
embedding models the run in which every provider call succeeds (no
`ClientError` is raised); the orchestrator model additionally has an
explicit failure oracle because the corresponding claims are about
exception handling.  Fields of the source dictionaries that are only ever
interpolated into log messages (names, CIDRs, availability zones,
descriptions, runtimes, ARNs used for display) are omitted from the
descriptor structures; every field that influences control flow is kept.
-/

namespace AwsCleaner

/-! ## Character-list string primitives

Python's `in` (substring test), `str.replace` (replace every
non-overlapping occurrence, scanning left to right) and `str.startswith`
are modelled over `List Char` so that all definitions reduce in the
kernel. -/

/-- Substring test: `listContains pat s` is `true` iff `pat` occurs
contiguously in `s` (Python `pat in s`). -/
def listContains (pat : List Char) : List Char → Bool
  | [] => pat.isEmpty
  | c :: rest => pat.isPrefixOf (c :: rest) || listContains pat rest

/-- Fuel-driven worker for `listReplace`; the fuel is the length of the
scanned list, so it never runs out. -/
def listReplaceAux (pat rep : List Char) : Nat → List Char → List Char
  | _, [] => []
  | 0, s => s
  | fuel + 1, c :: rest =>
    if pat ≠ [] ∧ pat.isPrefixOf (c :: rest) then
      rep ++ listReplaceAux pat rep fuel (List.drop (pat.length - 1) rest)
    else
      c :: listReplaceAux pat rep fuel rest

/-- Replace every non-overlapping occurrence of `pat` by `rep`, scanning
left to right (Python `s.replace(pat, rep)`; the empty-pattern case is
never exercised by the embedded code). -/
def listReplace (pat rep s : List Char) : List Char :=
  listReplaceAux pat rep s.length s

/-- Python `pat in s` on `String`. -/
def strContains (s pat : String) : Bool :=
  listContains pat.data s.data

/-- Python `s.replace(pat, rep)` on `String`. -/
def strReplace (s pat rep : String) : String :=
  ⟨listReplace pat.data rep.data s.data⟩

/-- Python `s.startswith(p)` on `String`. -/
def strStartsWith (s p : String) : Bool :=
  p.data.isPrefixOf s.data

end AwsCleaner

namespace AwsCleaner.UpdateLogging

/-!  Embedding of `update_logging.py`. -/

/-- One iteration of the filtering loop of `filter_log_file`
(`update_logging.py`, lines 38-49): the line kept for the output file, or
`none` when the line is dropped. -/
def processLine (line : String) : Option String :=
  if strContains line " - INFO - Completed" then
    some (strReplace line " - INFO - " " - WARNING - ")
  else if strContains line " - WARNING -" then
    some line
  else if strContains line "Successfully" then
    some line
  else
    none

/-- The whole filtering loop of `filter_log_file`: keeps (and possibly
rewrites) exactly the lines `processLine` accepts, in order. -/
def filterLines (lines : List String) : List String :=
  lines.filterMap processLine

/-- A file-system write performed by `filter_log_file`; the payload is the
written content at line granularity. -/
inductive FileOp where
  | writeBackup (lines : List String)
  | writeOriginal (lines : List String)
  deriving DecidableEq, Repr

/-- `filter_log_file` (`update_logging.py`, lines 13-58) as the ordered
list of file writes it performs on the file's lines: first the timestamped
backup holding the original content, then the in-place rewrite with the
filtered lines. -/
def filterLogFile (lines : List String) : List FileOp :=
  [FileOp.writeBackup lines, FileOp.writeOriginal (filterLines lines)]

/-- Everything `main` (`update_logging.py`, lines 75-129) needs from its
surroundings: whether `aws_cleanup.log` exists in the current directory,
in the parent directory, the paths found by the recursive `os.walk`
search, the first command-line argument (when present) and whether the
path it names exists. -/
structure MainEnv where
  cwd : String
  parent : String
  cwdHasLog : Bool
  parentHasLog : Bool
  walkLogs : List String
  arg : Option String
  argPathExists : Bool
  deriving Repr

/-- `main` of `update_logging.py` as the ordered list of paths it passes
to `filter_log_file`: current directory first, then parent directory,
then the recursive search, and the command-line argument only as the last
resort (an empty result is the "not found" failure path). -/
def mainTargets (env : MainEnv) : List String :=
  if env.cwdHasLog then [env.cwd ++ "/aws_cleanup.log"]
  else if env.parentHasLog then [env.parent ++ "/aws_cleanup.log"]
  else if ¬ env.walkLogs.isEmpty then env.walkLogs
  else
    match env.arg with
    | some a => if env.argPathExists then [a] else []
    | none => []

/-- Modelled from the spec's words (section 8 and the claim): the
line-selection predicate "contains a warning-level marker, contains
`Successfully`, or contains a `Completed` marker". -/
def keptSpec (line : String) : Bool :=
  strContains line " - WARNING -" || strContains line "Successfully" ||
    strContains line " - INFO - Completed"

/-- Modelled from the spec's words: the per-line rewrite "`Completed`
lines are reclassified from INFO to WARNING", all other kept lines are
unchanged. -/
def transformSpec (line : String) : String :=
  if strContains line " - INFO - Completed" then
    strReplace line " - INFO - " " - WARNING - "
  else line

end AwsCleaner.UpdateLogging

namespace AwsCleaner

/-! ## AWS API calls

One constructor per boto3 call the cleaner modules issue.  Arguments are
the identifiers the Python code passes; pagination of list calls is
flattened (one call stands for the paginated listing). -/

inductive Call where
  -- vpc.py
  | describeNatGateways
  | deleteNatGateway (natGatewayId : String)
  | describeNetworkInterfaces
  | deleteNetworkInterface (networkInterfaceId : String)
  | describeInternetGateways
  | detachInternetGateway (internetGatewayId vpcId : String)
  | deleteInternetGateway (internetGatewayId : String)
  | describeVpnConnections
  | deleteVpnConnection (vpnConnectionId : String)
  | describeVpnGateways
  | detachVpnGateway (vpnGatewayId vpcId : String)
  | deleteVpnGateway (vpnGatewayId : String)
  | describeTransitGatewayAttachments
  | deleteTransitGatewayVpcAttachment (transitGatewayAttachmentId : String)
  | describeTransitGateways
  | deleteTransitGateway (transitGatewayId : String)
  | describeVpcs
  | describeRouteTables (vpcId : String)
  | disassociateRouteTable (associationId : String)
  | deleteRouteTable (routeTableId : String)
  | describeSubnets (vpcId : String)
  | deleteSubnet (subnetId : String)
  | describeSecurityGroups (vpcId : Option String)
  | deleteSecurityGroup (groupId : String)
  | describeNetworkAcls (vpcId : String)
  | deleteNetworkAcl (networkAclId : String)
  | describeVpcEndpoints (vpcId : String)
  | deleteVpcEndpoints (vpcEndpointId : String)
  | describeVpcPeeringConnections
  | deleteVpcPeeringConnection (vpcPeeringConnectionId : String)
  | deleteVpc (vpcId : String)
  -- ec2.py
  | describeInstances
  | terminateInstances (instanceId : String)
  | describeAddresses
  | releaseAddress (allocationId : String)
  | describeVolumes
  | deleteVolume (volumeId : String)
  | getCallerIdentity
  | describeSnapshots
  | deleteSnapshot (snapshotId : String)
  | describeImages
  | deregisterImage (imageId : String)
  -- s3.py
  | listBuckets
  | getBucketLocation (bucket : String)
  | getBucketVersioning (bucket : String)
  | getObjectLockConfiguration (bucket : String)
  | deleteObjectVersions (bucket : String)
  | deleteObjects (bucket : String)
  | deleteBucketLifecycle (bucket : String)
  | deleteBucketPolicy (bucket : String)
  | deleteBucket (bucket : String)
  -- lambda_module.py
  | listFunctions
  | listEventSourceMappings (functionName : String)
  | deleteEventSourceMapping (uuid : String)
  | deleteFunction (functionName : String)
  | listLayers
  | listLayerVersions (layerName : String)
  | deleteLayerVersion (layerName : String) (versionNumber : Nat)
  -- cloudformation.py
  | listStacks
  | listStackResources (stackName : String)
  | deleteStack (stackName : String) (retainResources : List String)
  -- rds.py
  | describeDBInstances
  | modifyDBInstance (dbInstanceIdentifier : String)
  | deleteDBInstance (dbInstanceIdentifier : String)
  | describeDBClusters
  | modifyDBCluster (dbClusterIdentifier : String)
  | deleteDBCluster (dbClusterIdentifier : String)
  | describeDBSnapshots
  | deleteDBSnapshot (dbSnapshotIdentifier : String)
  | describeDBClusterSnapshots
  | deleteDBClusterSnapshot (dbClusterSnapshotIdentifier : String)
  | describeDBParameterGroups
  | deleteDBParameterGroup (name : String)
  | describeDBClusterParameterGroups
  | deleteDBClusterParameterGroup (name : String)
  | describeDBSubnetGroups
  | deleteDBSubnetGroup (name : String)
  | describeOptionGroups
  | deleteOptionGroup (name : String)
  | describeEventSubscriptions
  | deleteEventSubscription (name : String)
  -- iam.py
  | listAccountAliases
  | listUsers
  | listAccessKeys (userName : String)
  | deleteAccessKey (userName keyId : String)
  | listUserPolicies (userName : String)
  | deleteUserPolicy (userName policyName : String)
  | listAttachedUserPolicies (userName : String)
  | detachUserPolicy (userName policyArn : String)
  | listGroupsForUser (userName : String)
  | removeUserFromGroup (userName groupName : String)
  | listMfaDevices (userName : String)
  | deactivateMfaDevice (userName serialNumber : String)
  | getLoginProfile (userName : String)
  | deleteLoginProfile (userName : String)
  | deleteUser (userName : String)
  | listGroups
  | listGroupPolicies (groupName : String)
  | deleteGroupPolicy (groupName policyName : String)
  | listAttachedGroupPolicies (groupName : String)
  | detachGroupPolicy (groupName policyArn : String)
  | deleteGroup (groupName : String)
  | listRoles
  | listRolePolicies (roleName : String)
  | deleteRolePolicy (roleName policyName : String)
  | listAttachedRolePolicies (roleName : String)
  | detachRolePolicy (roleName policyArn : String)
  | listInstanceProfilesForRole (roleName : String)
  | removeRoleFromInstanceProfile (instanceProfileName roleName : String)
  | deleteInstanceProfile (instanceProfileName : String)
  | deleteRole (roleName : String)
  | listPolicies
  | listEntitiesForPolicy (policyArn : String)
  | listPolicyVersions (policyArn : String)
  | deletePolicyVersion (policyArn versionId : String)
  | deletePolicy (policyArn : String)
  deriving BEq, Repr

namespace Call

/-- `true` for the provider calls that mutate account state (delete,
terminate, detach, disassociate, release, deregister, modify, remove,
deactivate); `false` for pure listing/describe/get calls. -/
def isMutating : Call → Bool
  | describeNatGateways | describeNetworkInterfaces | describeInternetGateways
  | describeVpnConnections | describeVpnGateways
  | describeTransitGatewayAttachments | describeTransitGateways
  | describeVpcs | describeRouteTables _ | describeSubnets _
  | describeSecurityGroups _ | describeNetworkAcls _ | describeVpcEndpoints _
  | describeVpcPeeringConnections
  | describeInstances | describeAddresses | describeVolumes
  | getCallerIdentity | describeSnapshots | describeImages
  | listBuckets | getBucketLocation _ | getBucketVersioning _
  | getObjectLockConfiguration _
  | listFunctions | listEventSourceMappings _ | listLayers
  | listLayerVersions _
  | listStacks | listStackResources _
  | describeDBInstances | describeDBClusters | describeDBSnapshots
  | describeDBClusterSnapshots | describeDBParameterGroups
  | describeDBClusterParameterGroups | describeDBSubnetGroups
  | describeOptionGroups | describeEventSubscriptions
  | listAccountAliases | listUsers | listAccessKeys _ | listUserPolicies _
  | listAttachedUserPolicies _ | listGroupsForUser _ | listMfaDevices _
  | getLoginProfile _ | listGroups | listGroupPolicies _
  | listAttachedGroupPolicies _ | listRoles | listRolePolicies _
  | listAttachedRolePolicies _ | listInstanceProfilesForRole _
  | listPolicies | listEntitiesForPolicy _ | listPolicyVersions _ => false
  | _ => true

end Call

end AwsCleaner

namespace AwsCleaner.Vpc

/-! Embedding of `cleaner/vpc.py`.  `clean(region, session, dry_run)`
becomes a function from the region's resource descriptors to the ordered
list of API calls issued; the `region` string only selects the client and
decorates log lines, so it is not a parameter of the model. -/

/-- NAT gateway descriptor (`describe_nat_gateways`). -/
structure NatGateway where
  natGatewayId : String
  vpcId : String
  state : String

/-- Network-interface descriptor (`describe_network_interfaces`). -/
structure NetworkInterface where
  networkInterfaceId : String
  status : String

/-- One entry of an internet gateway's `Attachments` list; `VpcId` may be
absent. -/
structure IgwAttachment where
  vpcId : Option String

/-- Internet gateway descriptor (`describe_internet_gateways`). -/
structure InternetGateway where
  internetGatewayId : String
  attachments : List IgwAttachment

/-- VPN connection descriptor (`describe_vpn_connections`). -/
structure VpnConnection where
  vpnConnectionId : String
  state : String

/-- One entry of a VPN gateway's `VpcAttachments`; both fields may be
absent in the source dictionary. -/
structure VgwAttachment where
  vpcId : Option String
  state : Option String

/-- VPN gateway descriptor (`describe_vpn_gateways`). -/
structure VpnGateway where
  vpnGatewayId : String
  state : String
  vpcAttachments : List VgwAttachment

/-- Transit-gateway attachment descriptor
(`describe_transit_gateway_attachments`). -/
structure TgwAttachment where
  transitGatewayAttachmentId : String
  state : String

/-- Transit gateway descriptor (`describe_transit_gateways`). -/
structure TransitGateway where
  transitGatewayId : String
  state : String

/-- VPC descriptor (`describe_vpcs`). -/
structure VpcInfo where
  vpcId : String
  isDefault : Bool

/-- One entry of a route table's `Associations` list. -/
structure RtAssociation where
  routeTableAssociationId : String
  main : Bool
  subnetId : Option String

/-- Route-table descriptor (`describe_route_tables`, filtered by VPC). -/
structure RouteTable where
  routeTableId : String
  vpcId : String
  associations : List RtAssociation

/-- Subnet descriptor (`describe_subnets`, filtered by VPC). -/
structure Subnet where
  subnetId : String
  vpcId : String

/-- Security-group descriptor (`describe_security_groups`, filtered by
VPC). -/
structure SecurityGroup where
  groupId : String
  groupName : String
  vpcId : String

/-- Network-ACL descriptor (`describe_network_acls`, filtered by VPC). -/
structure NetworkAcl where
  networkAclId : String
  vpcId : String
  isDefault : Bool

/-- VPC-endpoint descriptor (`describe_vpc_endpoints`, filtered by
VPC). -/
structure VpcEndpoint where
  vpcEndpointId : String
  vpcId : String

/-- VPC-peering descriptor (`describe_vpc_peering_connections`);
`statusCode` is `peering['Status']['Code']` (`'unknown'` when absent). -/
structure PeeringConnection where
  vpcPeeringConnectionId : String
  statusCode : String

/-- Everything the region's API returns to `vpc.clean`. -/
structure Env where
  natGateways : List NatGateway
  networkInterfaces : List NetworkInterface
  internetGateways : List InternetGateway
  vpnConnections : List VpnConnection
  vpnGateways : List VpnGateway
  tgwAttachments : List TgwAttachment
  transitGateways : List TransitGateway
  vpcs : List VpcInfo
  routeTables : List RouteTable
  subnets : List Subnet
  securityGroups : List SecurityGroup
  networkAcls : List NetworkAcl
  vpcEndpoints : List VpcEndpoint
  peeringConnections : List PeeringConnection

/-- Step 1 body (`vpc.py` 49-67): skip NAT gateways already
deleting/deleted, delete otherwise unless dry run. -/
def natCalls (d : Bool) (nat : NatGateway) : List Call :=
  if nat.state ∈ ["deleting", "deleted"] then []
  else if d then []
  else [Call.deleteNatGateway nat.natGatewayId]

/-- Step 2 body (`vpc.py` 79-97): skip in-use/detaching/deleting ENIs. -/
def eniCalls (d : Bool) (eni : NetworkInterface) : List Call :=
  if eni.status ∈ ["in-use", "detaching", "deleting"] then []
  else if d then []
  else [Call.deleteNetworkInterface eni.networkInterfaceId]

/-- Step 3 body (`vpc.py` 109-133): detach from every attached VPC, then
delete the internet gateway. -/
def igwCalls (d : Bool) (igw : InternetGateway) : List Call :=
  if d then []
  else
    igw.attachments.filterMap
      (fun a => a.vpcId.map (Call.detachInternetGateway igw.internetGatewayId))
      ++ [Call.deleteInternetGateway igw.internetGatewayId]

/-- Step 4 body (`vpc.py` 145-162): skip deleting/deleted VPN
connections. -/
def vpnConnCalls (d : Bool) (vpn : VpnConnection) : List Call :=
  if vpn.state ∈ ["deleting", "deleted"] then []
  else if d then []
  else [Call.deleteVpnConnection vpn.vpnConnectionId]

/-- Step 5 body (`vpc.py` 174-209): skip deleting/deleted VPN gateways;
otherwise detach from every VPC whose attachment is not already
detached/detaching, then delete. -/
def vgwCalls (d : Bool) (vgw : VpnGateway) : List Call :=
  if vgw.state ∈ ["deleting", "deleted"] then []
  else if d then []
  else
    vgw.vpcAttachments.filterMap
      (fun a =>
        match a.vpcId with
        | some v =>
          if a.state ≠ some "detached" ∧ a.state ≠ some "detaching" then
            some (Call.detachVpnGateway vgw.vpnGatewayId v)
          else none
        | none => none)
      ++ [Call.deleteVpnGateway vgw.vpnGatewayId]

/-- Step 6 body (`vpc.py` 221-238). -/
def tgwAttCalls (d : Bool) (att : TgwAttachment) : List Call :=
  if att.state ∈ ["deleting", "deleted"] then []
  else if d then []
  else [Call.deleteTransitGatewayVpcAttachment att.transitGatewayAttachmentId]

/-- Step 7 body (`vpc.py` 254-271). -/
def tgwCalls (d : Bool) (tgw : TransitGateway) : List Call :=
  if tgw.state ∈ ["deleting", "deleted"] then []
  else if d then []
  else [Call.deleteTransitGateway tgw.transitGatewayId]

/-- Steps 8-9 body (`vpc.py` 298-332): skip a route table with a main
association; otherwise disassociate every subnet association, then delete
the table. -/
def rtCalls (d : Bool) (rt : RouteTable) : List Call :=
  if rt.associations.any (·.main) then []
  else if d then []
  else
    rt.associations.filterMap
      (fun a =>
        if a.subnetId.isSome then
          some (Call.disassociateRouteTable a.routeTableAssociationId)
        else none)
      ++ [Call.deleteRouteTable rt.routeTableId]

/-- Step 10 body (`vpc.py` 341-354). -/
def subnetCalls (d : Bool) (s : Subnet) : List Call :=
  if d then [] else [Call.deleteSubnet s.subnetId]

/-- Step 11 body (`vpc.py` 365-386): the group named `default` is
skipped. -/
def sgCalls (d : Bool) (sg : SecurityGroup) : List Call :=
  if sg.groupName = "default" then []
  else if d then []
  else [Call.deleteSecurityGroup sg.groupId]

/-- Step 12 body (`vpc.py` 397-417): default network ACLs are skipped. -/
def naclCalls (d : Bool) (acl : NetworkAcl) : List Call :=
  if acl.isDefault then []
  else if d then []
  else [Call.deleteNetworkAcl acl.networkAclId]

/-- Step 13 body (`vpc.py` 428-441). -/
def epCalls (d : Bool) (ep : VpcEndpoint) : List Call :=
  if d then [] else [Call.deleteVpcEndpoints ep.vpcEndpointId]

/-- Step 14 body (`vpc.py` 450-470): skip deleted/rejected/failed/expired
peering connections. -/
def peerCalls (d : Bool) (p : PeeringConnection) : List Call :=
  if p.statusCode ∈ ["deleted", "rejected", "failed", "expired"] then []
  else if d then []
  else [Call.deleteVpcPeeringConnection p.vpcPeeringConnectionId]

/-- Step 15 body (`vpc.py` 476-498): in dry run only a log line is
emitted; otherwise default VPCs are skipped and the rest deleted. -/
def vpcDeleteCalls (d : Bool) (v : VpcInfo) : List Call :=
  if d then []
  else if v.isDefault then []
  else [Call.deleteVpc v.vpcId]

/-- The per-VPC block of `vpc.py` (lines 287-443): route tables, subnets,
security groups, network ACLs and VPC endpoints of one VPC, each listed
with a `vpc-id` filter and processed in that order. -/
def perVpcCalls (env : Env) (d : Bool) (v : VpcInfo) : List Call :=
  Call.describeRouteTables v.vpcId ::
    (env.routeTables.filter (fun rt => rt.vpcId == v.vpcId)).flatMap (rtCalls d)
  ++ Call.describeSubnets v.vpcId ::
    (env.subnets.filter (fun s => s.vpcId == v.vpcId)).flatMap (subnetCalls d)
  ++ Call.describeSecurityGroups (some v.vpcId) ::
    (env.securityGroups.filter (fun sg => sg.vpcId == v.vpcId)).flatMap (sgCalls d)
  ++ Call.describeNetworkAcls v.vpcId ::
    (env.networkAcls.filter (fun acl => acl.vpcId == v.vpcId)).flatMap (naclCalls d)
  ++ Call.describeVpcEndpoints v.vpcId ::
    (env.vpcEndpoints.filter (fun ep => ep.vpcId == v.vpcId)).flatMap (epCalls d)

/-- `vpc.py` lines 280-498: list the VPCs; if none are found the function
returns early, otherwise it processes each VPC's resources, then peering
connections, then deletes the VPCs themselves. -/
def vpcSection (env : Env) (d : Bool) : List Call :=
  Call.describeVpcs ::
    (if env.vpcs.isEmpty then []
     else
       env.vpcs.flatMap (perVpcCalls env d)
       ++ Call.describeVpcPeeringConnections ::
            env.peeringConnections.flatMap (peerCalls d)
       ++ env.vpcs.flatMap (vpcDeleteCalls d))

/-- `vpc.clean` (`cleaner/vpc.py`, lines 11-506): the ordered list of API
calls issued when every provider call succeeds. -/
def clean (env : Env) (d : Bool) : List Call :=
  Call.describeNatGateways :: env.natGateways.flatMap (natCalls d)
  ++ Call.describeNetworkInterfaces :: env.networkInterfaces.flatMap (eniCalls d)
  ++ Call.describeInternetGateways :: env.internetGateways.flatMap (igwCalls d)
  ++ Call.describeVpnConnections :: env.vpnConnections.flatMap (vpnConnCalls d)
  ++ Call.describeVpnGateways :: env.vpnGateways.flatMap (vgwCalls d)
  ++ Call.describeTransitGatewayAttachments :: env.tgwAttachments.flatMap (tgwAttCalls d)
  ++ Call.describeTransitGateways :: env.transitGateways.flatMap (tgwCalls d)
  ++ vpcSection env d

end AwsCleaner.Vpc

namespace AwsCleaner.Ec2

/-! Embedding of `cleaner/ec2.py`. -/

/-- EC2 instance descriptor; `state` is `instance.state['Name']`
(`Name` tags are log-only and omitted). -/
structure Instance where
  instanceId : String
  state : String

/-- Security-group descriptor from the unfiltered
`describe_security_groups`. -/
structure SecurityGroup where
  groupId : String
  groupName : String

/-- Elastic-IP descriptor; `AllocationId` may be absent. -/
structure Address where
  allocationId : Option String

/-- EBS volume descriptor. -/
structure Volume where
  volumeId : String
  state : String

/-- EBS snapshot descriptor from `describe_snapshots(OwnerIds=[account])`. -/
structure Snapshot where
  snapshotId : String

/-- AMI descriptor from `describe_images(Owners=[account])`;
`blockDeviceMappings` holds `bdm['Ebs']['SnapshotId']` per mapping when
present. -/
structure Image where
  imageId : String
  blockDeviceMappings : List (Option String)

/-- Everything the region's API returns to `ec2.clean`. -/
structure Env where
  instances : List Instance
  securityGroups : List SecurityGroup
  addresses : List Address
  volumes : List Volume
  snapshots : List Snapshot
  images : List Image

/-- Step 1 body (`ec2.py` 36-57): skip terminated/shutting-down
instances, terminate the rest unless dry run. -/
def instanceCalls (d : Bool) (i : Instance) : List Call :=
  if i.state ∈ ["terminated", "shutting-down"] then []
  else if d then []
  else [Call.terminateInstances i.instanceId]

/-- Step 2 body (`ec2.py` 76-89): the listing is pre-filtered to
non-default groups (line 70). -/
def sgCalls (d : Bool) (sg : SecurityGroup) : List Call :=
  if d then [] else [Call.deleteSecurityGroup sg.groupId]

/-- Step 3 body (`ec2.py` 101-117): skip addresses without an
`AllocationId`. -/
def addressCalls (d : Bool) (a : Address) : List Call :=
  match a.allocationId with
  | none => []
  | some allocId => if d then [] else [Call.releaseAddress allocId]

/-- Step 4 body (`ec2.py` 127-148): skip in-use volumes. -/
def volumeCalls (d : Bool) (v : Volume) : List Call :=
  if v.state = "in-use" then []
  else if d then []
  else [Call.deleteVolume v.volumeId]

/-- Step 5 body (`ec2.py` 164-173). -/
def snapshotCalls (d : Bool) (s : Snapshot) : List Call :=
  if d then [] else [Call.deleteSnapshot s.snapshotId]

/-- Step 6 body (`ec2.py` 186-206): deregister the AMI, then delete every
snapshot referenced by its block-device mappings. -/
def imageCalls (d : Bool) (img : Image) : List Call :=
  if d then []
  else
    Call.deregisterImage img.imageId ::
      img.blockDeviceMappings.filterMap (fun s => s.map Call.deleteSnapshot)

/-- `ec2.clean` (`cleaner/ec2.py`, lines 10-210): instances, security
groups, Elastic IPs, volumes, snapshots, AMIs, in that order. -/
def clean (env : Env) (d : Bool) : List Call :=
  Call.describeInstances :: env.instances.flatMap (instanceCalls d)
  ++ Call.describeSecurityGroups none ::
      (env.securityGroups.filter (fun sg => sg.groupName ≠ "default")).flatMap (sgCalls d)
  ++ Call.describeAddresses :: env.addresses.flatMap (addressCalls d)
  ++ Call.describeVolumes :: env.volumes.flatMap (volumeCalls d)
  ++ Call.getCallerIdentity :: Call.describeSnapshots ::
      env.snapshots.flatMap (snapshotCalls d)
  ++ Call.getCallerIdentity :: Call.describeImages ::
      env.images.flatMap (imageCalls d)

end AwsCleaner.Ec2

namespace AwsCleaner.S3

/-! Embedding of `cleaner/s3.py`. -/

/-- Bucket descriptor: the name from `list_buckets`, the
`LocationConstraint` from `get_bucket_location` (`none` for the us-east-1
legacy encoding) and the `Status` from `get_bucket_versioning`. -/
structure Bucket where
  name : String
  locationConstraint : Option String
  versioningStatus : Option String

/-- Everything the API returns to `s3.clean`. -/
structure Env where
  buckets : List Bucket

/-- The bucket's region as computed on `s3.py` line 35:
`LocationConstraint or 'us-east-1'`. -/
def bucketRegion (b : Bucket) : String :=
  b.locationConstraint.getD "us-east-1"

/-- `s3.py` line 54: versioning counts when the status is `Enabled` or
`Suspended`. -/
def isVersioned (b : Bucket) : Bool :=
  b.versioningStatus == some "Enabled" || b.versioningStatus == some "Suspended"

/-- Per-bucket processing (`s3.py` lines 47-112): check versioning, then
in live mode check object lock, empty the bucket (all versions when
versioned), drop lifecycle configuration and policy, and delete the
bucket. -/
def bucketCalls (d : Bool) (b : Bucket) : List Call :=
  Call.getBucketVersioning b.name ::
    (if d then []
     else
       Call.getObjectLockConfiguration b.name ::
       (if isVersioned b then Call.deleteObjectVersions b.name
        else Call.deleteObjects b.name) ::
       [Call.deleteBucketLifecycle b.name, Call.deleteBucketPolicy b.name,
        Call.deleteBucket b.name])

/-- `s3.clean` (`cleaner/s3.py`, lines 10-116): list all buckets, resolve
each bucket's region, and process the buckets of the requested region
(early return when there are none). -/
def clean (region : String) (env : Env) (d : Bool) : List Call :=
  Call.listBuckets ::
    env.buckets.map (fun b => Call.getBucketLocation b.name)
  ++ (env.buckets.filter (fun b => bucketRegion b == region)).flatMap (bucketCalls d)

end AwsCleaner.S3

namespace AwsCleaner.LambdaMod

/-! Embedding of `cleaner/lambda_module.py`. -/

/-- Lambda function descriptor; `eventSourceMappings` holds the UUIDs
returned by `list_event_source_mappings`. -/
structure Func where
  functionName : String
  eventSourceMappings : List String

/-- Lambda layer descriptor; `versions` holds the version numbers returned
by `list_layer_versions`. -/
structure Layer where
  layerName : String
  versions : List Nat

/-- Everything the region's API returns to `lambda_module.clean`. -/
structure Env where
  functions : List Func
  layers : List Layer

/-- Per-function body (`lambda_module.py` 30-56): in live mode list and
delete every event source mapping, then delete the function. -/
def funcCalls (d : Bool) (f : Func) : List Call :=
  if d then []
  else
    Call.listEventSourceMappings f.functionName ::
      f.eventSourceMappings.map Call.deleteEventSourceMapping
    ++ [Call.deleteFunction f.functionName]

/-- Per-layer body (`lambda_module.py` 68-95): in live mode list the
layer's versions and delete each one. -/
def layerCalls (d : Bool) (l : Layer) : List Call :=
  if d then []
  else
    Call.listLayerVersions l.layerName ::
      l.versions.map (Call.deleteLayerVersion l.layerName)

/-- `lambda_module.clean` (`cleaner/lambda_module.py`, lines 10-98):
functions first, then layers. -/
def clean (env : Env) (d : Bool) : List Call :=
  Call.listFunctions :: env.functions.flatMap (funcCalls d)
  ++ Call.listLayers :: env.layers.flatMap (layerCalls d)

end AwsCleaner.LambdaMod

namespace AwsCleaner.Cloudformation

/-! Embedding of `cleaner/cloudformation.py`. -/

/-- One entry of `list_stack_resources`. -/
structure StackResource where
  logicalResourceId : String
  resourceStatus : String

/-- Stack summary from `list_stacks` (the listing itself is filtered by
the hard-coded `StackStatusFilter`, which excludes `DELETE_COMPLETE`);
`resources` is what `list_stack_resources` would return for it. -/
structure Stack where
  stackName : String
  stackId : String
  stackStatus : String
  rootId : Option String
  resources : List StackResource

/-- Everything the region's API returns to `cloudformation.clean`. -/
structure Env where
  stackSummaries : List Stack

/-- `cloudformation.py` line 78: a stack is nested when it carries a
`RootId` different from its own id. -/
def isNested (s : Stack) : Bool :=
  match s.rootId with
  | some r => r != s.stackId
  | none => false

/-- Per-stack body (`cloudformation.py` 57-108): skip
`DELETE_IN_PROGRESS`; in dry run only log; skip nested stacks; for stacks
in a failed state list their resources and retain the failed ones, then
delete. -/
def stackCalls (d : Bool) (s : Stack) : List Call :=
  if s.stackStatus ∈ ["DELETE_IN_PROGRESS"] then []
  else if d then []
  else if isNested s then []
  else if s.stackStatus ∈
      ["CREATE_FAILED", "ROLLBACK_FAILED", "UPDATE_ROLLBACK_FAILED",
       "DELETE_FAILED"] then
    [Call.listStackResources s.stackName,
     Call.deleteStack s.stackName
       ((s.resources.filter
           (fun r => r.resourceStatus ∈ ["CREATE_FAILED", "DELETE_FAILED"])).map
         (·.logicalResourceId))]
  else
    [Call.deleteStack s.stackName []]

/-- `cloudformation.clean` (`cleaner/cloudformation.py`, lines 11-117). -/
def clean (env : Env) (d : Bool) : List Call :=
  Call.listStacks :: env.stackSummaries.flatMap (stackCalls d)

end AwsCleaner.Cloudformation

namespace AwsCleaner.Rds

/-! Embedding of `cleaner/rds.py`. -/

/-- DB instance descriptor (`describe_db_instances`);
`dbClusterIdentifier` is present exactly when the instance belongs to an
Aurora cluster. -/
structure DBInstance where
  dbInstanceIdentifier : String
  dbInstanceStatus : String
  dbClusterIdentifier : Option String
  deletionProtection : Bool

/-- DB cluster descriptor (`describe_db_clusters`). -/
structure DBCluster where
  dbClusterIdentifier : String
  status : String
  deletionProtection : Bool

/-- DB snapshot descriptor (`describe_db_snapshots`). -/
structure DBSnapshot where
  dbSnapshotIdentifier : String
  status : String

/-- DB cluster snapshot descriptor (`describe_db_cluster_snapshots`). -/
structure DBClusterSnapshot where
  dbClusterSnapshotIdentifier : String
  status : String

/-- Everything the region's API returns to `rds.clean`; the parameter,
subnet, option group and event-subscription listings are plain name
lists because only the names influence control flow. -/
structure Env where
  dbInstances : List DBInstance
  dbClusters : List DBCluster
  dbSnapshots : List DBSnapshot
  dbClusterSnapshots : List DBClusterSnapshot
  dbParameterGroups : List String
  dbClusterParameterGroups : List String
  dbSubnetGroups : List String
  optionGroups : List String
  eventSubscriptions : List String

/-- Step 1 body (`rds.py` 41-77): in live mode skip cluster members,
disable deletion protection when set, then delete.  The status field is
only logged, never checked. -/
def instanceCalls (d : Bool) (i : DBInstance) : List Call :=
  if d then []
  else if i.dbClusterIdentifier.isSome then []
  else
    (if i.deletionProtection then [Call.modifyDBInstance i.dbInstanceIdentifier]
     else [])
    ++ [Call.deleteDBInstance i.dbInstanceIdentifier]

/-- Step 2 body (`rds.py` 91-121). -/
def clusterCalls (d : Bool) (c : DBCluster) : List Call :=
  if d then []
  else
    (if c.deletionProtection then [Call.modifyDBCluster c.dbClusterIdentifier]
     else [])
    ++ [Call.deleteDBCluster c.dbClusterIdentifier]

/-- Step 3 body (`rds.py` 135-149). -/
def snapshotCalls (d : Bool) (s : DBSnapshot) : List Call :=
  if d then [] else [Call.deleteDBSnapshot s.dbSnapshotIdentifier]

/-- Step 4 body (`rds.py` 163-177). -/
def clusterSnapshotCalls (d : Bool) (s : DBClusterSnapshot) : List Call :=
  if d then [] else [Call.deleteDBClusterSnapshot s.dbClusterSnapshotIdentifier]

/-- Step 5 body (`rds.py` 191-211): names starting with `default.` are
skipped before anything else. -/
def paramGroupCalls (d : Bool) (name : String) : List Call :=
  if strStartsWith name "default." then []
  else if d then []
  else [Call.deleteDBParameterGroup name]

/-- Step 6 body (`rds.py` 225-245). -/
def clusterParamGroupCalls (d : Bool) (name : String) : List Call :=
  if strStartsWith name "default." then []
  else if d then []
  else [Call.deleteDBClusterParameterGroup name]

/-- Step 7 body (`rds.py` 259-275). -/
def subnetGroupCalls (d : Bool) (name : String) : List Call :=
  if d then [] else [Call.deleteDBSubnetGroup name]

/-- Step 8 body (`rds.py` 289-309): names starting with `default:` are
skipped. -/
def optionGroupCalls (d : Bool) (name : String) : List Call :=
  if strStartsWith name "default:" then []
  else if d then []
  else [Call.deleteOptionGroup name]

/-- Step 9 body (`rds.py` 322-334). -/
def eventSubscriptionCalls (d : Bool) (name : String) : List Call :=
  if d then [] else [Call.deleteEventSubscription name]

/-- `rds.clean` (`cleaner/rds.py`, lines 11-344). -/
def clean (env : Env) (d : Bool) : List Call :=
  Call.describeDBInstances :: env.dbInstances.flatMap (instanceCalls d)
  ++ Call.describeDBClusters :: env.dbClusters.flatMap (clusterCalls d)
  ++ Call.describeDBSnapshots :: env.dbSnapshots.flatMap (snapshotCalls d)
  ++ Call.describeDBClusterSnapshots ::
      env.dbClusterSnapshots.flatMap (clusterSnapshotCalls d)
  ++ Call.describeDBParameterGroups ::
      env.dbParameterGroups.flatMap (paramGroupCalls d)
  ++ Call.describeDBClusterParameterGroups ::
      env.dbClusterParameterGroups.flatMap (clusterParamGroupCalls d)
  ++ Call.describeDBSubnetGroups :: env.dbSubnetGroups.flatMap (subnetGroupCalls d)
  ++ Call.describeOptionGroups :: env.optionGroups.flatMap (optionGroupCalls d)
  ++ Call.describeEventSubscriptions ::
      env.eventSubscriptions.flatMap (eventSubscriptionCalls d)

end AwsCleaner.Rds

namespace AwsCleaner.Iam

/-! Embedding of `cleaner/iam.py`.  IAM is global: `clean(session,
dry_run)` takes no region. -/

/-- IAM user descriptor together with what the per-user listing calls
return for it. -/
structure User where
  userName : String
  accessKeys : List String
  inlinePolicies : List String
  attachedPolicies : List String
  groups : List String
  mfaDevices : List String
  hasLoginProfile : Bool

/-- IAM group descriptor together with its per-group listings. -/
structure Group where
  groupName : String
  inlinePolicies : List String
  attachedPolicies : List String

/-- IAM role descriptor together with its per-role listings. -/
structure Role where
  roleName : String
  path : String
  inlinePolicies : List String
  attachedPolicies : List String
  instanceProfiles : List String

/-- One entry of `list_policy_versions`. -/
structure PolicyVersion where
  versionId : String
  isDefaultVersion : Bool

/-- Customer-managed policy descriptor (`list_policies(Scope='Local')`)
together with `list_entities_for_policy` and `list_policy_versions`
results. -/
structure Policy where
  policyName : String
  arn : String
  policyUsers : List String
  policyGroups : List String
  policyRoles : List String
  versions : List PolicyVersion

/-- Everything the IAM API returns to `iam.clean`. -/
structure Env where
  users : List User
  groups : List Group
  roles : List Role
  policies : List Policy

/-- Per-user body (`iam.py` 51-129): in live mode delete access keys and
inline policies, detach managed policies, leave groups, deactivate MFA
devices, probe and delete the login profile, then delete the user. -/
def userCalls (d : Bool) (u : User) : List Call :=
  if d then []
  else
    Call.listAccessKeys u.userName ::
      u.accessKeys.map (Call.deleteAccessKey u.userName)
    ++ Call.listUserPolicies u.userName ::
      u.inlinePolicies.map (Call.deleteUserPolicy u.userName)
    ++ Call.listAttachedUserPolicies u.userName ::
      u.attachedPolicies.map (Call.detachUserPolicy u.userName)
    ++ Call.listGroupsForUser u.userName ::
      u.groups.map (Call.removeUserFromGroup u.userName)
    ++ Call.listMfaDevices u.userName ::
      u.mfaDevices.map (Call.deactivateMfaDevice u.userName)
    ++ Call.getLoginProfile u.userName ::
      (if u.hasLoginProfile then [Call.deleteLoginProfile u.userName] else [])
    ++ [Call.deleteUser u.userName]

/-- Per-group body (`iam.py` 143-177). -/
def groupCalls (d : Bool) (g : Group) : List Call :=
  if d then []
  else
    Call.listGroupPolicies g.groupName ::
      g.inlinePolicies.map (Call.deleteGroupPolicy g.groupName)
    ++ Call.listAttachedGroupPolicies g.groupName ::
      g.attachedPolicies.map (Call.detachGroupPolicy g.groupName)
    ++ [Call.deleteGroup g.groupName]

/-- Per-role body (`iam.py` 191-250): service-linked roles (path under
`/aws-service-role/` or `/service-role/`) are skipped before anything
else; otherwise inline policies are deleted, managed policies detached,
the role is removed from each instance profile (deleting the profile),
and finally the role is deleted. -/
def roleCalls (d : Bool) (r : Role) : List Call :=
  if strStartsWith r.path "/aws-service-role/" ||
      strStartsWith r.path "/service-role/" then []
  else if d then []
  else
    Call.listRolePolicies r.roleName ::
      r.inlinePolicies.map (Call.deleteRolePolicy r.roleName)
    ++ Call.listAttachedRolePolicies r.roleName ::
      r.attachedPolicies.map (Call.detachRolePolicy r.roleName)
    ++ Call.listInstanceProfilesForRole r.roleName ::
      r.instanceProfiles.flatMap
        (fun p => [Call.removeRoleFromInstanceProfile p r.roleName,
                   Call.deleteInstanceProfile p])
    ++ [Call.deleteRole r.roleName]

/-- Per-policy body (`iam.py` 265-327): in live mode detach the policy
from any remaining users/groups/roles, delete its non-default versions,
then delete the policy. -/
def policyCalls (d : Bool) (p : Policy) : List Call :=
  if d then []
  else
    Call.listEntitiesForPolicy p.arn ::
      p.policyUsers.map (fun u => Call.detachUserPolicy u p.arn)
    ++ p.policyGroups.map (fun g => Call.detachGroupPolicy g p.arn)
    ++ p.policyRoles.map (fun r => Call.detachRolePolicy r p.arn)
    ++ Call.listPolicyVersions p.arn ::
      (p.versions.filter (fun v => ¬ v.isDefaultVersion)).map
        (fun v => Call.deletePolicyVersion p.arn v.versionId)
    ++ [Call.deletePolicy p.arn]

/-- `iam.clean` (`cleaner/iam.py`, lines 11-337): account alias lookup,
then users, groups, roles and customer-managed policies. -/
def clean (env : Env) (d : Bool) : List Call :=
  Call.listAccountAliases
  :: Call.listUsers :: env.users.flatMap (userCalls d)
  ++ Call.listGroups :: env.groups.flatMap (groupCalls d)
  ++ Call.listRoles :: env.roles.flatMap (roleCalls d)
  ++ Call.listPolicies :: env.policies.flatMap (policyCalls d)

end AwsCleaner.Iam

namespace AwsCleaner.Gui

/-! Embedding of `AWSCleanerGUI.run_cleanup` (`aws_cleanup_gui.py`, lines
175-256).  Session creation and region listing are abstracted into the
already-resolved `regions` parameter (the code falls back to `regions =
[]` when the region listing fails, line 197). -/

/-- The fixed interleaving of resource names: the insertion order of
`self.resource_vars` (lines 36-44), which both `selected_resources` and
the `resource_modules` dictionary preserve. -/
def resourceOrder : List String :=
  ["EC2", "S3", "Lambda", "CloudFormation", "RDS", "VPC", "IAM"]

/-- The modules loaded into `resource_modules` (lines 200-228), in
insertion order. -/
def selectedModules (resources : List String) : List String :=
  resourceOrder.filter (· ∈ resources)

/-- A cleaner invocation performed by the worker. -/
inductive OrchCall where
  | iamClean
  | regionalClean (region moduleName : String)
  deriving DecidableEq, Repr

/-- `run_cleanup` as the ordered list of cleaner invocations: the global
IAM pass (lines 231-236) followed by the region × module loop (lines
239-251), which `continue`s past IAM. -/
def runCleanup (resources regions : List String) : List OrchCall :=
  (if "IAM" ∈ resources then [OrchCall.iamClean] else [])
  ++ regions.flatMap (fun r =>
      (selectedModules resources).flatMap (fun n =>
        if n = "IAM" then [] else [OrchCall.regionalClean r n]))

/-- Observable orchestrator events for the error-handling claim; `none`
as region marks the global IAM pass. -/
inductive OrchEvent where
  | cleanAttempt (region : Option String) (moduleName : String)
  | errorLogged (region : Option String) (moduleName : String)
  | completed
  deriving DecidableEq, Repr

/-- `run_cleanup` with an explicit failure oracle: `fails scope module`
says whether that cleaner invocation raises.  Each invocation sits in its
own `try/except Exception` block (lines 233-236 and 248-251), so a
failure only adds an error-log event; the final "Cleanup process
completed" log (line 253) is always reached. -/
def runCleanupWithFailures (fails : Option String → String → Bool)
    (resources regions : List String) : List OrchEvent :=
  (if "IAM" ∈ resources then
     OrchEvent.cleanAttempt none "IAM" ::
       (if fails none "IAM" then [OrchEvent.errorLogged none "IAM"] else [])
   else [])
  ++ regions.flatMap (fun r =>
      (selectedModules resources).flatMap (fun n =>
        if n = "IAM" then []
        else
          OrchEvent.cleanAttempt (some r) n ::
            (if fails (some r) n then [OrchEvent.errorLogged (some r) n]
             else [])))
  ++ [OrchEvent.completed]

end AwsCleaner.Gui

namespace AwsCleaner

/-! ## Properties of the substring primitives -/

lemma listContains_nil_pat (s : List Char) : listContains [] s = true := by
  cases s <;> simp [listContains, List.isPrefixOf]

lemma listContains_tail (pat : List Char) (c : Char) (rest : List Char)
    (h : listContains pat rest = true) : listContains pat (c :: rest) = true := by
  simp only [listContains, Bool.or_eq_true]
  exact Or.inr h

lemma listContains_append_left (t a b : List Char)
    (h : listContains t a = true) : listContains t (a ++ b) = true := by
  induction a with
  | nil =>
    have ht : t = [] := by
      simpa [listContains, List.isEmpty_iff] using h
    subst ht
    exact listContains_nil_pat _
  | cons c a ih =>
    simp only [listContains, Bool.or_eq_true] at h
    simp only [List.cons_append, listContains, Bool.or_eq_true]
    rcases h with hp | hr
    · left
      rw [List.isPrefixOf_iff_prefix] at hp ⊢
      exact hp.trans (List.prefix_append (c :: a) b)
    · exact Or.inr (ih hr)

lemma listContains_of_prefix (q p s : List Char)
    (hq : q.isPrefixOf p = true) (h : listContains p s = true) :
    listContains q s = true := by
  induction s with
  | nil =>
    simp only [listContains, List.isEmpty_iff] at h ⊢
    subst h
    rw [List.isPrefixOf_iff_prefix] at hq
    exact List.prefix_nil.mp hq
  | cons c rest ih =>
    simp only [listContains, Bool.or_eq_true] at h ⊢
    rcases h with hp | hr
    · left
      rw [List.isPrefixOf_iff_prefix] at hq hp ⊢
      exact hq.trans hp
    · exact Or.inr (ih hr)

lemma listContains_listReplaceAux (pat rep tgt : List Char) (hpne : pat ≠ [])
    (hr : listContains tgt rep = true) :
    ∀ fuel s, s.length ≤ fuel → listContains pat s = true →
      listContains tgt (listReplaceAux pat rep fuel s) = true := by
  intro fuel
  induction fuel with
  | zero =>
    intro s hs hc
    have hsnil : s = [] := List.length_eq_zero.mp (Nat.le_zero.mp hs)
    subst hsnil
    simp [listContains, List.isEmpty_iff, hpne] at hc
  | succ n ih =>
    intro s hs hc
    cases s with
    | nil => simp [listContains, List.isEmpty_iff, hpne] at hc
    | cons c rest =>
      by_cases hpre : pat.isPrefixOf (c :: rest) = true
      · rw [show listReplaceAux pat rep (n + 1) (c :: rest) =
            rep ++ listReplaceAux pat rep n (List.drop (pat.length - 1) rest) by
          simp [listReplaceAux, hpne, hpre]]
        exact listContains_append_left _ _ _ hr
      · rw [show listReplaceAux pat rep (n + 1) (c :: rest) =
            c :: listReplaceAux pat rep n rest by
          simp [listReplaceAux, hpre]]
        simp only [listContains, Bool.or_eq_true] at hc
        rcases hc with hp | hrest
        · exact absurd hp hpre
        · exact listContains_tail _ _ _
            (ih rest (Nat.le_of_succ_le_succ hs) hrest)

/-- Replacing `" - INFO - "` by `" - WARNING - "` in a line that contains
`" - INFO - Completed"` always leaves a `" - WARNING -"` marker in the
result. -/
lemma strContains_warning_of_replace (l : String)
    (h : strContains l " - INFO - Completed" = true) :
    strContains (strReplace l " - INFO - " " - WARNING - ") " - WARNING -" = true := by
  have hp : listContains (" - INFO - ").data l.data = true :=
    listContains_of_prefix _ _ _ (by decide) h
  exact listContains_listReplaceAux _ _ _ (by decide) (by decide) _ _
    (Nat.le_refl _) hp

lemma filterMap_id_of_fixed {α : Type} (f : α → Option α) :
    ∀ xs : List α, (∀ s ∈ xs, f s = some s) → xs.filterMap f = xs := by
  intro xs
  induction xs with
  | nil => intro _; rfl
  | cons x xs ih =>
    intro h
    rw [List.filterMap_cons, h x (List.mem_cons_self x xs),
      ih (fun s hs => h s (List.mem_cons_of_mem x hs))]

end AwsCleaner

namespace AwsCleaner.UpdateLogging

/-- The filtering loop agrees with the spec's description of it: it keeps
exactly the lines matched by `keptSpec`, each rewritten by
`transformSpec`. -/
lemma filterLines_eq_spec (lines : List String) :
    filterLines lines = (lines.filter keptSpec).map transformSpec := by
  induction lines with
  | nil => rfl
  | cons l ls ih =>
    simp only [filterLines] at ih ⊢
    rw [List.filterMap_cons, List.filter_cons]
    cases h1 : strContains l " - INFO - Completed" with
    | true =>
      simp [processLine, keptSpec, transformSpec, h1, ih]
    | false =>
      cases h2 : strContains l " - WARNING -" with
      | true => simp [processLine, keptSpec, transformSpec, h1, h2, ih]
      | false =>
        cases h3 : strContains l "Successfully" with
        | true => simp [processLine, keptSpec, transformSpec, h1, h2, h3, ih]
        | false => simp [processLine, keptSpec, h1, h2, h3, ih]

/-- Every line the filter keeps, when it no longer contains the
`" - INFO - Completed"` marker, is kept verbatim by a second pass. -/
lemma processLine_fixed_of_mem (s : String) (ls : List String)
    (hs : s ∈ filterLines ls)
    (hno : strContains s " - INFO - Completed" = false) :
    processLine s = some s := by
  rcases List.mem_filterMap.mp hs with ⟨l, _, hl⟩
  have hkeep : strContains s " - WARNING -" = true ∨
      strContains s "Successfully" = true := by
    by_cases h1 : strContains l " - INFO - Completed" = true
    · left
      have : s = strReplace l " - INFO - " " - WARNING - " := by
        simp [processLine, h1] at hl
        exact hl.symm
      rw [this]
      exact strContains_warning_of_replace l h1
    · by_cases h2 : strContains l " - WARNING -" = true
      · have : s = l := by
          simp [processLine, Bool.eq_false_iff.mpr h1, h1, h2] at hl
          exact hl.symm
        subst this
        exact Or.inl h2
      · by_cases h3 : strContains l "Successfully" = true
        · have : s = l := by
            simp [processLine, h1, h2, h3] at hl
            exact hl.symm
          subst this
          exact Or.inr h3
        · simp [processLine, h1, h2, h3] at hl
  rcases hkeep with hw | hsucc
  · simp [processLine, hno, hw]
  · cases hw : strContains s " - WARNING -" <;>
      simp [processLine, hno, hw, hsucc]

end AwsCleaner.UpdateLogging

namespace AwsCleaner

open UpdateLogging in
/-- C6: for every input log file, `filter_log_file` first writes a backup
whose content equals the original file content and only then overwrites
the original, and the rewritten file contains exactly those original
lines that carry a warning-level marker, contain `Successfully`, or carry
the `" - INFO - Completed"` marker (the latter rewritten to WARNING), in
their original order and nothing else. -/
theorem C6_filter_log_file_backup_then_exact_rewrite (lines : List String) :
    (filterLogFile lines).head? = some (FileOp.writeBackup lines) ∧
    (filterLogFile lines).getLast? =
      some (FileOp.writeOriginal
        ((lines.filter keptSpec).map transformSpec)) := by
  refine ⟨rfl, ?_⟩
  rw [show (filterLogFile lines).getLast? =
      some (FileOp.writeOriginal (filterLines lines)) from rfl,
    filterLines_eq_spec]

open UpdateLogging in
/-- C10 counterexample: applying the line filter to its own output is not
the identity.  The line `" - INFO - INFO - Completed"` is rewritten to
`" - WARNING - INFO - Completed"`, which still matches the
`" - INFO - Completed"` branch, so a second pass rewrites it again. -/
theorem C10_counterexample_filter_not_idempotent :
    filterLines (filterLines [" - INFO - INFO - Completed"]) ≠
      filterLines [" - INFO - INFO - Completed"] := by decide

open UpdateLogging in
/-- C10 (amended): the line filter is idempotent on every input whose
filtered output has no residual `" - INFO - Completed"` marker (in
particular on all ordinary single-marker log lines): every retained line
is then warning-level or contains `Successfully` and is kept verbatim by
a second pass. -/
theorem C10_filter_idempotent_without_residual_marker (lines : List String)
    (h : ((filterLines lines).all
      (fun s => ! strContains s " - INFO - Completed")) = true) :
    filterLines (filterLines lines) = filterLines lines := by
  refine filterMap_id_of_fixed _ _ (fun s hs => ?_)
  have hno := List.all_eq_true.mp h s hs
  exact processLine_fixed_of_mem s lines hs (by simpa using hno)

open UpdateLogging in
/-- Witness for the amended C10 theorem at a concrete log. -/
theorem C10_filter_idempotent_witness :
    filterLines (filterLines
      ["2025 - INFO - Completed VPC resource cleanup",
       "2025 - WARNING - Deleting Subnet: s-1",
       "2025 - INFO - Found NAT Gateway: n-1",
       "Successfully deleted Subnet s-1"]) =
    filterLines
      ["2025 - INFO - Completed VPC resource cleanup",
       "2025 - WARNING - Deleting Subnet: s-1",
       "2025 - INFO - Found NAT Gateway: n-1",
       "Successfully deleted Subnet s-1"] :=
  C10_filter_idempotent_without_residual_marker _ (by decide)

/-- Concrete environment for the C7 counterexample: the log exists in the
current directory and an existing file is also named on the command
line. -/
def mainEnvC7 : UpdateLogging.MainEnv :=
  { cwd := "/work", parent := "/parent", cwdHasLog := true,
    parentHasLog := false, walkLogs := [], arg := some "/tmp/given.log",
    argPathExists := true }

open UpdateLogging in
/-- C7 counterexample: with `aws_cleanup.log` present in the current
directory, `main` filters the current directory's log and ignores the
existing file named by the command-line argument — the argument is the
last resort, not the override. -/
theorem C7_counterexample_argument_ignored :
    mainEnvC7.arg = some "/tmp/given.log" ∧
    mainEnvC7.argPathExists = true ∧
    mainTargets mainEnvC7 = ["/work/aws_cleanup.log"] ∧
    "/tmp/given.log" ∉ mainTargets mainEnvC7 := by decide

open UpdateLogging in
/-- C7 (amended): the command-line argument is consulted only after the
default search locations all fail; when the current and parent
directories have no `aws_cleanup.log`, the recursive search finds
nothing, and the argument names an existing file, `main` filters exactly
that file. -/
theorem C7_argument_used_when_search_fails (env : UpdateLogging.MainEnv)
    (a : String) (h1 : env.cwdHasLog = false) (h2 : env.parentHasLog = false)
    (h3 : env.walkLogs = []) (h4 : env.arg = some a)
    (h5 : env.argPathExists = true) :
    mainTargets env = [a] := by
  simp [mainTargets, h1, h2, h3, h4, h5]

open UpdateLogging in
/-- Witness for the amended C7 theorem at a concrete environment. -/
theorem C7_argument_used_witness :
    mainTargets
      { cwd := "/work", parent := "/parent", cwdHasLog := false,
        parentHasLog := false, walkLogs := [], arg := some "/tmp/given.log",
        argPathExists := true } = ["/tmp/given.log"] :=
  C7_argument_used_when_search_fails _ "/tmp/given.log" rfl rfl rfl rfl rfl

end AwsCleaner

namespace AwsCleaner

lemma flatMap_const_nil {α β : Type} (l : List α) :
    l.flatMap (fun _ => ([] : List β)) = [] := by
  induction l with
  | nil => rfl
  | cons x xs ih => simp [List.flatMap_cons, ih]

lemma vpc_dry_run_reads_only (env : Vpc.Env) :
    ∀ c ∈ Vpc.clean env true, c.isMutating = false := by
  intro c hc
  simp [Vpc.clean, Vpc.vpcSection, Vpc.perVpcCalls, Vpc.natCalls, Vpc.eniCalls,
    Vpc.igwCalls, Vpc.vpnConnCalls, Vpc.vgwCalls, Vpc.tgwAttCalls, Vpc.tgwCalls,
    Vpc.rtCalls, Vpc.subnetCalls, Vpc.sgCalls, Vpc.naclCalls, Vpc.epCalls,
    Vpc.peerCalls, Vpc.vpcDeleteCalls, flatMap_const_nil] at hc
  rcases hc with rfl | rfl | rfl | rfl | rfl | rfl | rfl | rfl |
    ⟨_, ⟨v, _, rfl | rfl | rfl | rfl | rfl⟩ | rfl⟩ <;> rfl

lemma ec2_dry_run_reads_only (env : Ec2.Env) :
    ∀ c ∈ Ec2.clean env true, c.isMutating = false := by
  intro c hc
  simp [Ec2.clean, Ec2.instanceCalls, Ec2.sgCalls, Ec2.addressCalls,
    Ec2.volumeCalls, Ec2.snapshotCalls, Ec2.imageCalls, flatMap_const_nil] at hc
  rcases hc with rfl | rfl | rfl | ⟨a, _, hc⟩ | rfl | rfl | rfl | rfl | rfl
  all_goals first
  | rfl
  | (cases ha : a.allocationId <;> simp [ha] at hc)

lemma s3_dry_run_reads_only (region : String) (env : S3.Env) :
    ∀ c ∈ S3.clean region env true, c.isMutating = false := by
  intro c hc
  simp [S3.clean, S3.bucketCalls, flatMap_const_nil] at hc
  rcases hc with rfl | ⟨a, _, rfl⟩ | ⟨a, _, rfl⟩ <;> rfl

lemma lambda_dry_run_reads_only (env : LambdaMod.Env) :
    ∀ c ∈ LambdaMod.clean env true, c.isMutating = false := by
  intro c hc
  simp [LambdaMod.clean, LambdaMod.funcCalls, LambdaMod.layerCalls,
    flatMap_const_nil] at hc
  rcases hc with rfl | rfl <;> rfl

lemma cloudformation_dry_run_reads_only (env : Cloudformation.Env) :
    ∀ c ∈ Cloudformation.clean env true, c.isMutating = false := by
  intro c hc
  simp [Cloudformation.clean, Cloudformation.stackCalls, flatMap_const_nil] at hc
  subst hc
  rfl

lemma rds_dry_run_reads_only (env : Rds.Env) :
    ∀ c ∈ Rds.clean env true, c.isMutating = false := by
  intro c hc
  simp [Rds.clean, Rds.instanceCalls, Rds.clusterCalls, Rds.snapshotCalls,
    Rds.clusterSnapshotCalls, Rds.paramGroupCalls, Rds.clusterParamGroupCalls,
    Rds.subnetGroupCalls, Rds.optionGroupCalls, Rds.eventSubscriptionCalls,
    flatMap_const_nil] at hc
  rcases hc with rfl | rfl | rfl | rfl | rfl | rfl | rfl | rfl | rfl <;> rfl

lemma iam_dry_run_reads_only (env : Iam.Env) :
    ∀ c ∈ Iam.clean env true, c.isMutating = false := by
  intro c hc
  simp [Iam.clean, Iam.userCalls, Iam.groupCalls, Iam.roleCalls,
    Iam.policyCalls, flatMap_const_nil] at hc
  rcases hc with rfl | rfl | rfl | rfl | rfl <;> rfl

/-- C1: with `dry_run=True`, none of the seven cleaner modules issues a
mutating provider call: every call in the dry-run trace of each `clean`
is a listing/describe/get call. -/
theorem C1_dry_run_issues_no_mutating_call :
    (∀ (env : Vpc.Env) (c : Call), c ∈ Vpc.clean env true →
        c.isMutating = false) ∧
    (∀ (env : Ec2.Env) (c : Call), c ∈ Ec2.clean env true →
        c.isMutating = false) ∧
    (∀ (region : String) (env : S3.Env) (c : Call),
        c ∈ S3.clean region env true → c.isMutating = false) ∧
    (∀ (env : LambdaMod.Env) (c : Call), c ∈ LambdaMod.clean env true →
        c.isMutating = false) ∧
    (∀ (env : Cloudformation.Env) (c : Call),
        c ∈ Cloudformation.clean env true → c.isMutating = false) ∧
    (∀ (env : Rds.Env) (c : Call), c ∈ Rds.clean env true →
        c.isMutating = false) ∧
    (∀ (env : Iam.Env) (c : Call), c ∈ Iam.clean env true →
        c.isMutating = false) :=
  ⟨fun env c => vpc_dry_run_reads_only env c,
   fun env c => ec2_dry_run_reads_only env c,
   fun region env c => s3_dry_run_reads_only region env c,
   fun env c => lambda_dry_run_reads_only env c,
   fun env c => cloudformation_dry_run_reads_only env c,
   fun env c => rds_dry_run_reads_only env c,
   fun env c => iam_dry_run_reads_only env c⟩

/-- A concrete one-resource-per-kind environment for the C1 witness. -/
def vpcEnvW : Vpc.Env :=
  { natGateways := [{ natGatewayId := "nat-1", vpcId := "vpc-1",
                      state := "available" }],
    networkInterfaces := [], internetGateways := [], vpnConnections := [],
    vpnGateways := [], tgwAttachments := [], transitGateways := [],
    vpcs := [{ vpcId := "vpc-1", isDefault := false }],
    routeTables := [], subnets := [], securityGroups := [],
    networkAcls := [], vpcEndpoints := [], peeringConnections := [] }

/-- Witness: the C1 theorem applied at a concrete environment and call. -/
theorem C1_dry_run_witness :
    Call.describeVpcs.isMutating = false :=
  C1_dry_run_issues_no_mutating_call.1 vpcEnvW Call.describeVpcs (by
    rw [show Vpc.clean vpcEnvW true =
      [Call.describeNatGateways, Call.describeNetworkInterfaces,
       Call.describeInternetGateways, Call.describeVpnConnections,
       Call.describeVpnGateways, Call.describeTransitGatewayAttachments,
       Call.describeTransitGateways, Call.describeVpcs,
       Call.describeRouteTables "vpc-1", Call.describeSubnets "vpc-1",
       Call.describeSecurityGroups (some "vpc-1"),
       Call.describeNetworkAcls "vpc-1", Call.describeVpcEndpoints "vpc-1",
       Call.describeVpcPeeringConnections] from rfl]
    simp)

end AwsCleaner

namespace AwsCleaner

/-- Concrete RDS environment for the C2 counterexample: a single stand-alone
DB instance whose status is already `deleting`. -/
def rdsEnvC2 : Rds.Env :=
  { dbInstances := [{ dbInstanceIdentifier := "db-1",
                      dbInstanceStatus := "deleting",
                      dbClusterIdentifier := none,
                      deletionProtection := false }],
    dbClusters := [], dbSnapshots := [], dbClusterSnapshots := [],
    dbParameterGroups := [], dbClusterParameterGroups := [],
    dbSubnetGroups := [], optionGroups := [], eventSubscriptions := [] }

/-- C2 counterexample: the RDS cleaner reads the `DBInstanceStatus` field
only for logging and performs no state check (`rds.py` 41-77), so a DB
instance already in status `deleting` still receives a
`delete_db_instance` call in live mode. -/
theorem C2_counterexample_rds_deletes_deleting_instance :
    rdsEnvC2.dbInstances.map (·.dbInstanceStatus) = ["deleting"] ∧
    Call.deleteDBInstance "db-1" ∈ Rds.clean rdsEnvC2 false := by
  refine ⟨rfl, ?_⟩
  rw [show Rds.clean rdsEnvC2 false =
    [Call.describeDBInstances, Call.deleteDBInstance "db-1",
     Call.describeDBClusters, Call.describeDBSnapshots,
     Call.describeDBClusterSnapshots, Call.describeDBParameterGroups,
     Call.describeDBClusterParameterGroups, Call.describeDBSubnetGroups,
     Call.describeOptionGroups, Call.describeEventSubscriptions] from rfl]
  simp

lemma nat_delete_provenance (env : Vpc.Env) (d : Bool) (id : String)
    (hc : Call.deleteNatGateway id ∈ Vpc.clean env d) :
    ∃ nat ∈ env.natGateways, nat.natGatewayId = id ∧
      nat.state ∉ (["deleting", "deleted"] : List String) := by
  simp [Vpc.clean, Vpc.vpcSection, Vpc.perVpcCalls, Vpc.natCalls, Vpc.eniCalls,
    Vpc.igwCalls, Vpc.vpnConnCalls, Vpc.vgwCalls, Vpc.tgwAttCalls, Vpc.tgwCalls,
    Vpc.rtCalls, Vpc.subnetCalls, Vpc.sgCalls, Vpc.naclCalls, Vpc.epCalls,
    Vpc.peerCalls, Vpc.vpcDeleteCalls] at hc
  rcases hc with ⟨nat, hmem, hst, _, rfl⟩ | ⟨vgw, -, -, -, att, -, hbad⟩
  · exact ⟨nat, hmem, rfl, by simp [hst.1, hst.2]⟩
  · rcases hv : att.vpcId with _ | v <;> rw [hv] at hbad
    · simp at hbad
    · split at hbad <;> simp at hbad

lemma eni_delete_provenance (env : Vpc.Env) (d : Bool) (id : String)
    (hc : Call.deleteNetworkInterface id ∈ Vpc.clean env d) :
    ∃ eni ∈ env.networkInterfaces, eni.networkInterfaceId = id ∧
      eni.status ∉ (["in-use", "detaching", "deleting"] : List String) := by
  simp [Vpc.clean, Vpc.vpcSection, Vpc.perVpcCalls, Vpc.natCalls, Vpc.eniCalls,
    Vpc.igwCalls, Vpc.vpnConnCalls, Vpc.vgwCalls, Vpc.tgwAttCalls, Vpc.tgwCalls,
    Vpc.rtCalls, Vpc.subnetCalls, Vpc.sgCalls, Vpc.naclCalls, Vpc.epCalls,
    Vpc.peerCalls, Vpc.vpcDeleteCalls] at hc
  rcases hc with ⟨eni, hmem, hst, _, rfl⟩ | ⟨vgw, -, -, -, att, -, hbad⟩
  · exact ⟨eni, hmem, rfl, by simp [hst.1, hst.2.1, hst.2.2]⟩
  · rcases hv : att.vpcId with _ | v <;> rw [hv] at hbad
    · simp at hbad
    · split at hbad <;> simp at hbad

lemma vpn_connection_delete_provenance (env : Vpc.Env) (d : Bool) (id : String)
    (hc : Call.deleteVpnConnection id ∈ Vpc.clean env d) :
    ∃ vpn ∈ env.vpnConnections, vpn.vpnConnectionId = id ∧
      vpn.state ∉ (["deleting", "deleted"] : List String) := by
  simp [Vpc.clean, Vpc.vpcSection, Vpc.perVpcCalls, Vpc.natCalls, Vpc.eniCalls,
    Vpc.igwCalls, Vpc.vpnConnCalls, Vpc.vgwCalls, Vpc.tgwAttCalls, Vpc.tgwCalls,
    Vpc.rtCalls, Vpc.subnetCalls, Vpc.sgCalls, Vpc.naclCalls, Vpc.epCalls,
    Vpc.peerCalls, Vpc.vpcDeleteCalls] at hc
  rcases hc with ⟨vpn, hmem, hst, _, rfl⟩ | ⟨vgw, -, -, -, att, -, hbad⟩
  · exact ⟨vpn, hmem, rfl, by simp [hst.1, hst.2]⟩
  · rcases hv : att.vpcId with _ | v <;> rw [hv] at hbad
    · simp at hbad
    · split at hbad <;> simp at hbad

lemma vgw_delete_provenance (env : Vpc.Env) (d : Bool) (id : String)
    (hc : Call.deleteVpnGateway id ∈ Vpc.clean env d) :
    ∃ vgw ∈ env.vpnGateways, vgw.vpnGatewayId = id ∧
      vgw.state ∉ (["deleting", "deleted"] : List String) := by
  simp [Vpc.clean, Vpc.vpcSection, Vpc.perVpcCalls, Vpc.natCalls, Vpc.eniCalls,
    Vpc.igwCalls, Vpc.vpnConnCalls, Vpc.vgwCalls, Vpc.tgwAttCalls, Vpc.tgwCalls,
    Vpc.rtCalls, Vpc.subnetCalls, Vpc.sgCalls, Vpc.naclCalls, Vpc.epCalls,
    Vpc.peerCalls, Vpc.vpcDeleteCalls] at hc
  rcases hc with ⟨vgw, hmem, hst, -, ⟨att, -, hbad⟩ | rfl⟩
  · rcases hv : att.vpcId with _ | v <;> rw [hv] at hbad
    · simp at hbad
    · split at hbad <;> simp at hbad
  · exact ⟨vgw, hmem, rfl, by simp [hst.1, hst.2]⟩

lemma tgw_attachment_delete_provenance (env : Vpc.Env) (d : Bool) (id : String)
    (hc : Call.deleteTransitGatewayVpcAttachment id ∈ Vpc.clean env d) :
    ∃ att ∈ env.tgwAttachments, att.transitGatewayAttachmentId = id ∧
      att.state ∉ (["deleting", "deleted"] : List String) := by
  simp [Vpc.clean, Vpc.vpcSection, Vpc.perVpcCalls, Vpc.natCalls, Vpc.eniCalls,
    Vpc.igwCalls, Vpc.vpnConnCalls, Vpc.vgwCalls, Vpc.tgwAttCalls, Vpc.tgwCalls,
    Vpc.rtCalls, Vpc.subnetCalls, Vpc.sgCalls, Vpc.naclCalls, Vpc.epCalls,
    Vpc.peerCalls, Vpc.vpcDeleteCalls] at hc
  rcases hc with ⟨vgw, -, -, -, att, -, hbad⟩ | ⟨att, hmem, hst, -, rfl⟩
  · rcases hv : att.vpcId with _ | v <;> rw [hv] at hbad
    · simp at hbad
    · split at hbad <;> simp at hbad
  · exact ⟨att, hmem, rfl, by simp [hst.1, hst.2]⟩

lemma tgw_delete_provenance (env : Vpc.Env) (d : Bool) (id : String)
    (hc : Call.deleteTransitGateway id ∈ Vpc.clean env d) :
    ∃ tgw ∈ env.transitGateways, tgw.transitGatewayId = id ∧
      tgw.state ∉ (["deleting", "deleted"] : List String) := by
  simp [Vpc.clean, Vpc.vpcSection, Vpc.perVpcCalls, Vpc.natCalls, Vpc.eniCalls,
    Vpc.igwCalls, Vpc.vpnConnCalls, Vpc.vgwCalls, Vpc.tgwAttCalls, Vpc.tgwCalls,
    Vpc.rtCalls, Vpc.subnetCalls, Vpc.sgCalls, Vpc.naclCalls, Vpc.epCalls,
    Vpc.peerCalls, Vpc.vpcDeleteCalls] at hc
  rcases hc with ⟨vgw, -, -, -, att, -, hbad⟩ | ⟨tgw, hmem, hst, -, rfl⟩
  · rcases hv : att.vpcId with _ | v <;> rw [hv] at hbad
    · simp at hbad
    · split at hbad <;> simp at hbad
  · exact ⟨tgw, hmem, rfl, by simp [hst.1, hst.2]⟩

lemma peering_delete_provenance (env : Vpc.Env) (d : Bool) (id : String)
    (hc : Call.deleteVpcPeeringConnection id ∈ Vpc.clean env d) :
    ∃ p ∈ env.peeringConnections, p.vpcPeeringConnectionId = id ∧
      p.statusCode ∉ (["deleted", "rejected", "failed", "expired"] : List String) := by
  simp [Vpc.clean, Vpc.vpcSection, Vpc.perVpcCalls, Vpc.natCalls, Vpc.eniCalls,
    Vpc.igwCalls, Vpc.vpnConnCalls, Vpc.vgwCalls, Vpc.tgwAttCalls, Vpc.tgwCalls,
    Vpc.rtCalls, Vpc.subnetCalls, Vpc.sgCalls, Vpc.naclCalls, Vpc.epCalls,
    Vpc.peerCalls, Vpc.vpcDeleteCalls] at hc
  rcases hc with ⟨vgw, -, -, -, att, -, hbad⟩ | ⟨-, p, hmem, hst, -, rfl⟩
  · rcases hv : att.vpcId with _ | v <;> rw [hv] at hbad
    · simp at hbad
    · split at hbad <;> simp at hbad
  · exact ⟨p, hmem, rfl, by simp [hst.1, hst.2.1, hst.2.2.1, hst.2.2.2]⟩

lemma instance_terminate_provenance (env : Ec2.Env) (d : Bool) (id : String)
    (hc : Call.terminateInstances id ∈ Ec2.clean env d) :
    ∃ i ∈ env.instances, i.instanceId = id ∧
      i.state ∉ (["terminated", "shutting-down"] : List String) := by
  simp [Ec2.clean, Ec2.instanceCalls, Ec2.sgCalls, Ec2.addressCalls,
    Ec2.volumeCalls, Ec2.snapshotCalls, Ec2.imageCalls] at hc
  rcases hc with ⟨i, hmem, hst, -, rfl⟩ | ⟨a, -, hbad⟩
  · exact ⟨i, hmem, rfl, by simp [hst.1, hst.2]⟩
  · rcases hv : a.allocationId with _ | allocId <;> rw [hv] at hbad
    · simp at hbad
    · split at hbad <;> simp at hbad

lemma stack_delete_provenance (env : Cloudformation.Env) (d : Bool)
    (name : String) (retain : List String)
    (hc : Call.deleteStack name retain ∈ Cloudformation.clean env d) :
    ∃ s ∈ env.stackSummaries, s.stackName = name ∧
      s.stackStatus ≠ "DELETE_IN_PROGRESS" := by
  simp [Cloudformation.clean, Cloudformation.stackCalls] at hc
  rcases hc with ⟨s, hmem, hst, -, -, hdel⟩
  refine ⟨s, hmem, ?_, hst⟩
  split at hdel <;> simp at hdel
  · exact hdel.1.symm
  · exact hdel.1.symm

/-- C2 (amended): every cleaner that reads a deletion-relevant state
field checks it before its delete call — NAT gateways, network
interfaces, VPN connections, VPN gateways, transit-gateway attachments,
transit gateways and peering connections in the VPC cleaner, EC2
instances, and CloudFormation stacks: each delete call in any trace (dry
or live) targets a descriptor outside the skipped states.  The RDS
cleaner, by contrast, performs no such check (see the counterexample). -/
theorem C2_state_checked_before_delete :
    (∀ (env : Vpc.Env) (d : Bool) (id : String),
        Call.deleteNatGateway id ∈ Vpc.clean env d →
        ∃ nat ∈ env.natGateways, nat.natGatewayId = id ∧
          nat.state ∉ (["deleting", "deleted"] : List String)) ∧
    (∀ (env : Vpc.Env) (d : Bool) (id : String),
        Call.deleteNetworkInterface id ∈ Vpc.clean env d →
        ∃ eni ∈ env.networkInterfaces, eni.networkInterfaceId = id ∧
          eni.status ∉ (["in-use", "detaching", "deleting"] : List String)) ∧
    (∀ (env : Vpc.Env) (d : Bool) (id : String),
        Call.deleteVpnConnection id ∈ Vpc.clean env d →
        ∃ vpn ∈ env.vpnConnections, vpn.vpnConnectionId = id ∧
          vpn.state ∉ (["deleting", "deleted"] : List String)) ∧
    (∀ (env : Vpc.Env) (d : Bool) (id : String),
        Call.deleteVpnGateway id ∈ Vpc.clean env d →
        ∃ vgw ∈ env.vpnGateways, vgw.vpnGatewayId = id ∧
          vgw.state ∉ (["deleting", "deleted"] : List String)) ∧
    (∀ (env : Vpc.Env) (d : Bool) (id : String),
        Call.deleteTransitGatewayVpcAttachment id ∈ Vpc.clean env d →
        ∃ att ∈ env.tgwAttachments, att.transitGatewayAttachmentId = id ∧
          att.state ∉ (["deleting", "deleted"] : List String)) ∧
    (∀ (env : Vpc.Env) (d : Bool) (id : String),
        Call.deleteTransitGateway id ∈ Vpc.clean env d →
        ∃ tgw ∈ env.transitGateways, tgw.transitGatewayId = id ∧
          tgw.state ∉ (["deleting", "deleted"] : List String)) ∧
    (∀ (env : Vpc.Env) (d : Bool) (id : String),
        Call.deleteVpcPeeringConnection id ∈ Vpc.clean env d →
        ∃ p ∈ env.peeringConnections, p.vpcPeeringConnectionId = id ∧
          p.statusCode ∉
            (["deleted", "rejected", "failed", "expired"] : List String)) ∧
    (∀ (env : Ec2.Env) (d : Bool) (id : String),
        Call.terminateInstances id ∈ Ec2.clean env d →
        ∃ i ∈ env.instances, i.instanceId = id ∧
          i.state ∉ (["terminated", "shutting-down"] : List String)) ∧
    (∀ (env : Cloudformation.Env) (d : Bool) (name : String)
        (retain : List String),
        Call.deleteStack name retain ∈ Cloudformation.clean env d →
        ∃ s ∈ env.stackSummaries, s.stackName = name ∧
          s.stackStatus ≠ "DELETE_IN_PROGRESS") :=
  ⟨nat_delete_provenance, eni_delete_provenance,
   vpn_connection_delete_provenance, vgw_delete_provenance,
   tgw_attachment_delete_provenance, tgw_delete_provenance,
   peering_delete_provenance, instance_terminate_provenance,
   stack_delete_provenance⟩

/-- Witness: the amended C2 theorem applied to a concrete live run whose
trace contains `deleteNatGateway "nat-1"`. -/
theorem C2_state_checked_witness :
    ∃ nat ∈ vpcEnvW.natGateways, nat.natGatewayId = "nat-1" ∧
      nat.state ∉ (["deleting", "deleted"] : List String) :=
  C2_state_checked_before_delete.1 vpcEnvW false "nat-1" (by
    rw [show Vpc.clean vpcEnvW false =
      [Call.describeNatGateways, Call.deleteNatGateway "nat-1",
       Call.describeNetworkInterfaces, Call.describeInternetGateways,
       Call.describeVpnConnections, Call.describeVpnGateways,
       Call.describeTransitGatewayAttachments, Call.describeTransitGateways,
       Call.describeVpcs, Call.describeRouteTables "vpc-1",
       Call.describeSubnets "vpc-1",
       Call.describeSecurityGroups (some "vpc-1"),
       Call.describeNetworkAcls "vpc-1", Call.describeVpcEndpoints "vpc-1",
       Call.describeVpcPeeringConnections, Call.deleteVpc "vpc-1"] from rfl]
    simp)

end AwsCleaner

namespace AwsCleaner

lemma vpc_delete_non_default (env : Vpc.Env) (d : Bool) (id : String)
    (hc : Call.deleteVpc id ∈ Vpc.clean env d) :
    ∃ v ∈ env.vpcs, v.vpcId = id ∧ v.isDefault = false := by
  simp [Vpc.clean, Vpc.vpcSection, Vpc.perVpcCalls, Vpc.natCalls, Vpc.eniCalls,
    Vpc.igwCalls, Vpc.vpnConnCalls, Vpc.vgwCalls, Vpc.tgwAttCalls, Vpc.tgwCalls,
    Vpc.rtCalls, Vpc.subnetCalls, Vpc.sgCalls, Vpc.naclCalls, Vpc.epCalls,
    Vpc.peerCalls, Vpc.vpcDeleteCalls] at hc
  rcases hc with ⟨vgw, -, -, -, att, -, hbad⟩ | ⟨-, v, hmem, -, hdef, rfl⟩
  · rcases hv : att.vpcId with _ | w <;> rw [hv] at hbad
    · simp at hbad
    · split at hbad <;> simp at hbad
  · exact ⟨v, hmem, rfl, hdef⟩

lemma vpc_sg_delete_non_default (env : Vpc.Env) (d : Bool) (id : String)
    (hc : Call.deleteSecurityGroup id ∈ Vpc.clean env d) :
    ∃ sg ∈ env.securityGroups, sg.groupId = id ∧ sg.groupName ≠ "default" := by
  simp [Vpc.clean, Vpc.vpcSection, Vpc.perVpcCalls, Vpc.natCalls, Vpc.eniCalls,
    Vpc.igwCalls, Vpc.vpnConnCalls, Vpc.vgwCalls, Vpc.tgwAttCalls, Vpc.tgwCalls,
    Vpc.rtCalls, Vpc.subnetCalls, Vpc.sgCalls, Vpc.naclCalls, Vpc.epCalls,
    Vpc.peerCalls, Vpc.vpcDeleteCalls] at hc
  rcases hc with ⟨vgw, -, -, -, att, -, hbad⟩ |
    ⟨-, v, -, sg, ⟨hsgmem, -⟩, hname, -, rfl⟩
  · rcases hv : att.vpcId with _ | w <;> rw [hv] at hbad
    · simp at hbad
    · split at hbad <;> simp at hbad
  · exact ⟨sg, hsgmem, rfl, hname⟩

lemma ec2_sg_delete_non_default (env : Ec2.Env) (d : Bool) (id : String)
    (hc : Call.deleteSecurityGroup id ∈ Ec2.clean env d) :
    ∃ sg ∈ env.securityGroups, sg.groupId = id ∧ sg.groupName ≠ "default" := by
  simp [Ec2.clean, Ec2.instanceCalls, Ec2.sgCalls, Ec2.addressCalls,
    Ec2.volumeCalls, Ec2.snapshotCalls, Ec2.imageCalls] at hc
  rcases hc with ⟨sg, ⟨hmem, hname⟩, -, rfl⟩ | ⟨a, -, hbad⟩
  · exact ⟨sg, hmem, rfl, hname⟩
  · rcases hv : a.allocationId with _ | allocId <;> rw [hv] at hbad
    · simp at hbad
    · split at hbad <;> simp at hbad

lemma nacl_delete_non_default (env : Vpc.Env) (d : Bool) (id : String)
    (hc : Call.deleteNetworkAcl id ∈ Vpc.clean env d) :
    ∃ acl ∈ env.networkAcls, acl.networkAclId = id ∧ acl.isDefault = false := by
  simp [Vpc.clean, Vpc.vpcSection, Vpc.perVpcCalls, Vpc.natCalls, Vpc.eniCalls,
    Vpc.igwCalls, Vpc.vpnConnCalls, Vpc.vgwCalls, Vpc.tgwAttCalls, Vpc.tgwCalls,
    Vpc.rtCalls, Vpc.subnetCalls, Vpc.sgCalls, Vpc.naclCalls, Vpc.epCalls,
    Vpc.peerCalls, Vpc.vpcDeleteCalls] at hc
  rcases hc with ⟨vgw, -, -, -, att, -, hbad⟩ |
    ⟨-, v, -, acl, ⟨haclmem, -⟩, hdef, -, rfl⟩
  · rcases hv : att.vpcId with _ | w <;> rw [hv] at hbad
    · simp at hbad
    · split at hbad <;> simp at hbad
  · exact ⟨acl, haclmem, rfl, hdef⟩

lemma param_group_delete_non_default (env : Rds.Env) (d : Bool) (n : String)
    (hc : Call.deleteDBParameterGroup n ∈ Rds.clean env d) :
    n ∈ env.dbParameterGroups ∧ strStartsWith n "default." = false := by
  simp [Rds.clean, Rds.instanceCalls, Rds.clusterCalls, Rds.snapshotCalls,
    Rds.clusterSnapshotCalls, Rds.paramGroupCalls, Rds.clusterParamGroupCalls,
    Rds.subnetGroupCalls, Rds.optionGroupCalls, Rds.eventSubscriptionCalls] at hc
  rcases hc with ⟨m, hmem, hdef, -, rfl⟩
  exact ⟨hmem, hdef⟩

lemma cluster_param_group_delete_non_default (env : Rds.Env) (d : Bool)
    (n : String)
    (hc : Call.deleteDBClusterParameterGroup n ∈ Rds.clean env d) :
    n ∈ env.dbClusterParameterGroups ∧ strStartsWith n "default." = false := by
  simp [Rds.clean, Rds.instanceCalls, Rds.clusterCalls, Rds.snapshotCalls,
    Rds.clusterSnapshotCalls, Rds.paramGroupCalls, Rds.clusterParamGroupCalls,
    Rds.subnetGroupCalls, Rds.optionGroupCalls, Rds.eventSubscriptionCalls] at hc
  rcases hc with ⟨m, hmem, hdef, -, rfl⟩
  exact ⟨hmem, hdef⟩

lemma role_delete_not_service_linked (env : Iam.Env) (d : Bool) (r : String)
    (hc : Call.deleteRole r ∈ Iam.clean env d) :
    ∃ role ∈ env.roles, role.roleName = r ∧
      strStartsWith role.path "/aws-service-role/" = false ∧
      strStartsWith role.path "/service-role/" = false := by
  simp [Iam.clean, Iam.userCalls, Iam.groupCalls, Iam.roleCalls,
    Iam.policyCalls] at hc
  rcases hc with ⟨role, hmem, ⟨h1, h2⟩, -, rfl⟩
  exact ⟨role, hmem, rfl, h1, h2⟩

/-- C9: in every run (dry or live), delete calls never target a default
VPC, a security group named `default` (in either the VPC or the EC2
cleaner), a default network ACL, a default RDS (cluster) parameter group
(name starting with `default.`), or a service-linked IAM role (path
under `/aws-service-role/` or `/service-role/`): every such delete call
in any trace originates from a descriptor that passed the corresponding
skip check. -/
theorem C9_protected_resources_never_deleted :
    (∀ (env : Vpc.Env) (d : Bool) (id : String),
        Call.deleteVpc id ∈ Vpc.clean env d →
        ∃ v ∈ env.vpcs, v.vpcId = id ∧ v.isDefault = false) ∧
    (∀ (env : Vpc.Env) (d : Bool) (id : String),
        Call.deleteSecurityGroup id ∈ Vpc.clean env d →
        ∃ sg ∈ env.securityGroups, sg.groupId = id ∧
          sg.groupName ≠ "default") ∧
    (∀ (env : Ec2.Env) (d : Bool) (id : String),
        Call.deleteSecurityGroup id ∈ Ec2.clean env d →
        ∃ sg ∈ env.securityGroups, sg.groupId = id ∧
          sg.groupName ≠ "default") ∧
    (∀ (env : Vpc.Env) (d : Bool) (id : String),
        Call.deleteNetworkAcl id ∈ Vpc.clean env d →
        ∃ acl ∈ env.networkAcls, acl.networkAclId = id ∧
          acl.isDefault = false) ∧
    (∀ (env : Rds.Env) (d : Bool) (n : String),
        Call.deleteDBParameterGroup n ∈ Rds.clean env d →
        n ∈ env.dbParameterGroups ∧ strStartsWith n "default." = false) ∧
    (∀ (env : Rds.Env) (d : Bool) (n : String),
        Call.deleteDBClusterParameterGroup n ∈ Rds.clean env d →
        n ∈ env.dbClusterParameterGroups ∧
          strStartsWith n "default." = false) ∧
    (∀ (env : Iam.Env) (d : Bool) (r : String),
        Call.deleteRole r ∈ Iam.clean env d →
        ∃ role ∈ env.roles, role.roleName = r ∧
          strStartsWith role.path "/aws-service-role/" = false ∧
          strStartsWith role.path "/service-role/" = false) :=
  ⟨vpc_delete_non_default, vpc_sg_delete_non_default,
   ec2_sg_delete_non_default, nacl_delete_non_default,
   param_group_delete_non_default, cluster_param_group_delete_non_default,
   role_delete_not_service_linked⟩

/-- Witness: the C9 theorem applied to a concrete live trace that deletes
the non-default VPC `vpc-1`. -/
theorem C9_protected_resources_witness :
    ∃ v ∈ vpcEnvW.vpcs, v.vpcId = "vpc-1" ∧ v.isDefault = false :=
  C9_protected_resources_never_deleted.1 vpcEnvW false "vpc-1" (by
    rw [show Vpc.clean vpcEnvW false =
      [Call.describeNatGateways, Call.deleteNatGateway "nat-1",
       Call.describeNetworkInterfaces, Call.describeInternetGateways,
       Call.describeVpnConnections, Call.describeVpnGateways,
       Call.describeTransitGatewayAttachments, Call.describeTransitGateways,
       Call.describeVpcs, Call.describeRouteTables "vpc-1",
       Call.describeSubnets "vpc-1",
       Call.describeSecurityGroups (some "vpc-1"),
       Call.describeNetworkAcls "vpc-1", Call.describeVpcEndpoints "vpc-1",
       Call.describeVpcPeeringConnections, Call.deleteVpc "vpc-1"] from rfl]
    simp)

end AwsCleaner

namespace AwsCleaner

lemma runCleanup_loop_no_iam (resources regions : List String) :
    Gui.OrchCall.iamClean ∉
      regions.flatMap (fun r =>
        (Gui.selectedModules resources).flatMap (fun n =>
          if n = "IAM" then [] else [Gui.OrchCall.regionalClean r n])) := by
  intro h
  rcases List.mem_flatMap.mp h with ⟨r, -, h⟩
  rcases List.mem_flatMap.mp h with ⟨n, -, h⟩
  split at h <;> simp at h

/-- C4: when IAM is selected, the orchestrator invokes the IAM cleaner
exactly once, as the very first cleaner invocation (before the region
loop), regardless of the region list (including the empty one); no
invocation inside the region loop targets IAM, and without IAM selected
it is never invoked. -/
theorem C4_iam_cleaned_once_globally :
    (∀ resources regions : List String,
        (Gui.runCleanup resources regions).count Gui.OrchCall.iamClean =
          if "IAM" ∈ resources then 1 else 0) ∧
    (∀ resources regions : List String, "IAM" ∈ resources →
        (Gui.runCleanup resources regions).head? =
          some Gui.OrchCall.iamClean) ∧
    (∀ (resources regions : List String) (r n : String),
        Gui.OrchCall.regionalClean r n ∈ Gui.runCleanup resources regions →
        n ≠ "IAM") := by
  refine ⟨?_, ?_, ?_⟩
  · intro resources regions
    rw [Gui.runCleanup, List.count_append,
      List.count_eq_zero.mpr (runCleanup_loop_no_iam resources regions),
      Nat.add_zero]
    by_cases h : "IAM" ∈ resources <;> simp [h]
  · intro resources regions h
    simp [Gui.runCleanup, h]
  · intro resources regions r n hc
    rw [Gui.runCleanup] at hc
    rcases List.mem_append.mp hc with h | h
    · split at h <;> simp at h
    · rcases List.mem_flatMap.mp h with ⟨r', -, h⟩
      rcases List.mem_flatMap.mp h with ⟨n', hn', h⟩
      split at h
      · simp at h
      · next hne =>
        simp only [List.mem_singleton, Gui.OrchCall.regionalClean.injEq] at h
        exact h.2 ▸ hne

/-- Witness: the C4 theorem at a concrete selection and region list. -/
theorem C4_iam_cleaned_once_witness :
    (Gui.runCleanup ["EC2", "IAM"] ["us-east-1", "eu-west-1"]).count
        Gui.OrchCall.iamClean = 1 ∧
    (Gui.runCleanup ["EC2", "IAM"] []).count Gui.OrchCall.iamClean = 1 ∧
    (Gui.runCleanup ["EC2", "IAM"] ["us-east-1", "eu-west-1"]).head? =
      some Gui.OrchCall.iamClean ∧
    "EC2" ≠ "IAM" := by
  refine ⟨?_, ?_,
    C4_iam_cleaned_once_globally.2.1 ["EC2", "IAM"]
      ["us-east-1", "eu-west-1"] (by decide),
    C4_iam_cleaned_once_globally.2.2 ["EC2", "IAM"] ["us-east-1", "eu-west-1"]
      "us-east-1" "EC2" (by decide)⟩
  · rw [C4_iam_cleaned_once_globally.1 ["EC2", "IAM"]
      ["us-east-1", "eu-west-1"]]
    decide
  · rw [C4_iam_cleaned_once_globally.1 ["EC2", "IAM"] []]
    decide

/-- C5: with an arbitrary per-invocation failure oracle, the orchestrator
still attempts every (region, selected non-IAM module) pair — a failing
cleaner only adds an error-log event — and the final completion step is
always the last event of the run. -/
theorem C5_cleaner_failures_do_not_abort_run :
    (∀ (fails : Option String → String → Bool)
        (resources regions : List String),
        (Gui.runCleanupWithFailures fails resources regions).getLast? =
          some Gui.OrchEvent.completed) ∧
    (∀ (fails : Option String → String → Bool)
        (resources regions : List String) (r n : String),
        r ∈ regions → n ∈ Gui.selectedModules resources → n ≠ "IAM" →
        Gui.OrchEvent.cleanAttempt (some r) n ∈
          Gui.runCleanupWithFailures fails resources regions) := by
  constructor
  · intro fails resources regions
    rw [Gui.runCleanupWithFailures]
    exact List.getLast?_concat _
  · intro fails resources regions r n hr hn hne
    rw [Gui.runCleanupWithFailures]
    refine List.mem_append.mpr (Or.inl (List.mem_append.mpr (Or.inr ?_)))
    refine List.mem_flatMap.mpr ⟨r, hr, ?_⟩
    refine List.mem_flatMap.mpr ⟨n, hn, ?_⟩
    rw [if_neg hne]
    exact List.mem_cons_self _ _

/-- Witness: the C5 theorem with a concrete failure oracle that fails the
EC2 cleaner in one region; the other region's pair is still attempted and
the run completes. -/
theorem C5_cleaner_failures_witness :
    (Gui.runCleanupWithFailures
        (fun scope _ => scope = some "us-east-1") ["EC2", "VPC"]
        ["us-east-1", "eu-west-1"]).getLast? =
      some Gui.OrchEvent.completed ∧
    Gui.OrchEvent.cleanAttempt (some "eu-west-1") "VPC" ∈
      Gui.runCleanupWithFailures
        (fun scope _ => scope = some "us-east-1") ["EC2", "VPC"]
        ["us-east-1", "eu-west-1"] :=
  ⟨C5_cleaner_failures_do_not_abort_run.1 _ ["EC2", "VPC"]
      ["us-east-1", "eu-west-1"],
   C5_cleaner_failures_do_not_abort_run.2 _ ["EC2", "VPC"]
      ["us-east-1", "eu-west-1"] "eu-west-1" "VPC" (by decide) (by decide)
      (by decide)⟩

end AwsCleaner


namespace AwsCleaner

/-- Recognizer for `delete_stack` calls naming a given stack. -/
def isDeleteStackOf (name : String) : Call → Bool
  | .deleteStack n _ => n == name
  | _ => false

/-- Recognizer for `terminate_instances` calls naming a given instance. -/
def isTerminateOf (id : String) : Call → Bool
  | .terminateInstances i => i == id
  | _ => false

/-- Recognizer for `delete_snapshot` calls naming a given snapshot. -/
def isDeleteSnapshotOf (id : String) : Call → Bool
  | .deleteSnapshot s => s == id
  | _ => false

/-- Concrete EC2 environment for the C8 counterexample: one account-owned
snapshot that also backs an AMI. -/
def ec2EnvC8 : Ec2.Env :=
  { instances := [], securityGroups := [], addresses := [], volumes := [],
    snapshots := [{ snapshotId := "snap-1" }],
    images := [{ imageId := "ami-1", blockDeviceMappings := [some "snap-1"] }] }

/-- C8 counterexample: a live EC2 run deletes the snapshot `snap-1` twice
— once in the account-snapshot sweep (`ec2.py` 164-173) and once more
after deregistering the AMI that references it (`ec2.py` 196-204). -/
theorem C8_counterexample_snapshot_deleted_twice :
    ec2EnvC8.snapshots.map (·.snapshotId) = ["snap-1"] ∧
    (Ec2.clean ec2EnvC8 false).countP (isDeleteSnapshotOf "snap-1") = 2 := by
  decide

lemma countP_flatMap_zero {α : Type} (p : Call → Bool) (f : α → List Call)
    (l : List α) (h : ∀ x ∈ l, (f x).countP p = 0) :
    (l.flatMap f).countP p = 0 := by
  induction l with
  | nil => rfl
  | cons x xs ih =>
    rw [List.flatMap_cons, List.countP_append,
      h x (List.mem_cons_self x xs),
      ih (fun y hy => h y (List.mem_cons_of_mem x hy))]

lemma countP_stackCalls_le (name : String) (s : Cloudformation.Stack) :
    (Cloudformation.stackCalls false s).countP (isDeleteStackOf name) ≤
      if s.stackName = name then 1 else 0 := by
  rw [Cloudformation.stackCalls]
  by_cases heq : s.stackName = name
  all_goals
    split
    · simp
    · simp only [Bool.false_eq_true, if_false]
      split
      · simp
      · split <;>
          simp [List.countP_cons, List.countP_nil, isDeleteStackOf, heq]

lemma countP_stackCalls_zero (name : String) (s : Cloudformation.Stack)
    (hne : s.stackName ≠ name) :
    (Cloudformation.stackCalls false s).countP (isDeleteStackOf name) = 0 := by
  have h := countP_stackCalls_le name s
  rw [if_neg hne] at h
  exact Nat.le_zero.mp h

lemma cfn_flatMap_at_most_once (name : String) :
    ∀ l : List Cloudformation.Stack, (l.map (·.stackName)).Nodup →
      (l.flatMap (Cloudformation.stackCalls false)).countP
        (isDeleteStackOf name) ≤ 1 := by
  intro l
  induction l with
  | nil => intro _; simp
  | cons s rest ih =>
    intro h
    rw [List.map_cons, List.nodup_cons] at h
    rw [List.flatMap_cons, List.countP_append]
    by_cases heq : s.stackName = name
    · have hz : (rest.flatMap (Cloudformation.stackCalls false)).countP
          (isDeleteStackOf name) = 0 := by
        refine countP_flatMap_zero _ _ _ (fun t ht => ?_)
        refine countP_stackCalls_zero name t (fun habs => h.1 ?_)
        rw [← heq] at habs
        exact habs ▸ List.mem_map_of_mem (·.stackName) ht
      rw [hz, Nat.add_zero]
      simpa [heq] using countP_stackCalls_le name s
    · rw [countP_stackCalls_zero name s heq, Nat.zero_add]
      exact ih h.2

lemma cfn_delete_stack_at_most_once (env : Cloudformation.Env) (name : String)
    (h : (env.stackSummaries.map (·.stackName)).Nodup) :
    (Cloudformation.clean env false).countP (isDeleteStackOf name) ≤ 1 := by
  rw [Cloudformation.clean,
    List.countP_cons_of_neg _ _ (by simp [isDeleteStackOf])]
  exact cfn_flatMap_at_most_once name env.stackSummaries h

lemma countP_instanceCalls_le (id : String) (i : Ec2.Instance) :
    (Ec2.instanceCalls false i).countP (isTerminateOf id) ≤
      if i.instanceId = id then 1 else 0 := by
  rw [Ec2.instanceCalls]
  by_cases heq : i.instanceId = id <;> split <;>
    simp [List.countP_cons, List.countP_nil, isTerminateOf, heq]

lemma countP_instanceCalls_zero (id : String) (i : Ec2.Instance)
    (hne : i.instanceId ≠ id) :
    (Ec2.instanceCalls false i).countP (isTerminateOf id) = 0 := by
  have h := countP_instanceCalls_le id i
  rw [if_neg hne] at h
  exact Nat.le_zero.mp h

lemma ec2_rest_no_terminate (env : Ec2.Env) (id : String) :
    ((env.securityGroups.filter (fun sg => sg.groupName ≠ "default")).flatMap
        (Ec2.sgCalls false)).countP (isTerminateOf id) = 0 ∧
    (env.addresses.flatMap (Ec2.addressCalls false)).countP
      (isTerminateOf id) = 0 ∧
    (env.volumes.flatMap (Ec2.volumeCalls false)).countP
      (isTerminateOf id) = 0 ∧
    (env.snapshots.flatMap (Ec2.snapshotCalls false)).countP
      (isTerminateOf id) = 0 ∧
    (env.images.flatMap (Ec2.imageCalls false)).countP
      (isTerminateOf id) = 0 := by
  refine ⟨countP_flatMap_zero _ _ _ (fun sg _ => by
      simp [Ec2.sgCalls, List.countP_cons, List.countP_nil, isTerminateOf]),
    countP_flatMap_zero _ _ _ (fun a _ => ?_),
    countP_flatMap_zero _ _ _ (fun v _ => by
      rw [Ec2.volumeCalls]
      split <;>
        simp [List.countP_cons, List.countP_nil, isTerminateOf]),
    countP_flatMap_zero _ _ _ (fun s _ => by
      simp [Ec2.snapshotCalls, List.countP_cons, List.countP_nil,
        isTerminateOf]),
    countP_flatMap_zero _ _ _ (fun img _ => ?_)⟩
  · cases ha : a.allocationId <;>
      simp [Ec2.addressCalls, ha, List.countP_cons, List.countP_nil,
        isTerminateOf]
  · rw [Ec2.imageCalls]
    simp only [Bool.false_eq_true, if_false, List.countP_cons]
    rw [List.countP_eq_zero.mpr (fun c hc => ?_)]
    · simp [isTerminateOf]
    · rcases List.mem_filterMap.mp hc with ⟨o, -, ho⟩
      cases o with
      | none => simp at ho
      | some s =>
        have hc2 : c = Call.deleteSnapshot s := by simpa using ho.symm
        rw [hc2]
        simp [isTerminateOf]

lemma ec2_instances_flatMap_at_most_once (id : String) :
    ∀ l : List Ec2.Instance, (l.map (·.instanceId)).Nodup →
      (l.flatMap (Ec2.instanceCalls false)).countP (isTerminateOf id) ≤ 1 := by
  intro l
  induction l with
  | nil => intro _; simp
  | cons i rest ih =>
    intro h
    rw [List.map_cons, List.nodup_cons] at h
    rw [List.flatMap_cons, List.countP_append]
    by_cases heq : i.instanceId = id
    · have hz : (rest.flatMap (Ec2.instanceCalls false)).countP
          (isTerminateOf id) = 0 := by
        refine countP_flatMap_zero _ _ _ (fun j hj => ?_)
        refine countP_instanceCalls_zero id j (fun habs => h.1 ?_)
        rw [← heq] at habs
        exact habs ▸ List.mem_map_of_mem (·.instanceId) hj
      rw [hz, Nat.add_zero]
      simpa [heq] using countP_instanceCalls_le id i
    · rw [countP_instanceCalls_zero id i heq, Nat.zero_add]
      exact ih h.2

lemma ec2_terminate_at_most_once (env : Ec2.Env) (id : String)
    (h : (env.instances.map (·.instanceId)).Nodup) :
    (Ec2.clean env false).countP (isTerminateOf id) ≤ 1 := by
  obtain ⟨h1, h2, h3, h4, h5⟩ := ec2_rest_no_terminate env id
  rw [Ec2.clean]
  simp only [List.countP_append, List.countP_cons, h1, h2, h3, h4, h5,
    show ∀ v, isTerminateOf id (Call.describeSecurityGroups v) = false from
      fun _ => rfl,
    show isTerminateOf id Call.describeInstances = false from rfl,
    show isTerminateOf id Call.describeAddresses = false from rfl,
    show isTerminateOf id Call.describeVolumes = false from rfl,
    show isTerminateOf id Call.getCallerIdentity = false from rfl,
    show isTerminateOf id Call.describeSnapshots = false from rfl,
    show isTerminateOf id Call.describeImages = false from rfl]
  simp only [Bool.false_eq_true, if_false, Nat.add_zero, Nat.zero_add]
  exact ec2_instances_flatMap_at_most_once id env.instances h

lemma countP_bdms_filterMap (id : String) (bdms : List (Option String)) :
    (bdms.filterMap (fun s => s.map Call.deleteSnapshot)).countP
      (isDeleteSnapshotOf id) = bdms.count (some id) := by
  induction bdms with
  | nil => rfl
  | cons o rest ih =>
    cases o with
    | none =>
      rw [show (none :: rest).filterMap (fun o => Option.map Call.deleteSnapshot o) =
          rest.filterMap (fun o => Option.map Call.deleteSnapshot o) from rfl,
        List.count_cons, ih]
      simp
    | some s =>
      rw [show ((some s :: rest).filterMap
            (fun o => Option.map Call.deleteSnapshot o)) =
          Call.deleteSnapshot s ::
            rest.filterMap (fun o => Option.map Call.deleteSnapshot o) from rfl,
        List.countP_cons, List.count_cons, ih]
      by_cases heq : s = id <;> simp [isDeleteSnapshotOf, heq]

lemma ec2_images_snapshot_count (id : String) (l : List Ec2.Image) :
    (l.flatMap (Ec2.imageCalls false)).countP (isDeleteSnapshotOf id) =
      (l.flatMap (·.blockDeviceMappings)).count (some id) := by
  induction l with
  | nil => rfl
  | cons img rest ih =>
    rw [List.flatMap_cons, List.countP_append, List.flatMap_cons,
      List.count_append, ih, Ec2.imageCalls]
    simp only [Bool.false_eq_true, if_false]
    rw [List.countP_cons_of_neg, countP_bdms_filterMap]
    simp [isDeleteSnapshotOf]

lemma ec2_snapshots_phase_count (id : String) :
    ∀ l : List Ec2.Snapshot, (l.map (·.snapshotId)).Nodup →
      (l.flatMap (Ec2.snapshotCalls false)).countP (isDeleteSnapshotOf id) =
        if id ∈ l.map (·.snapshotId) then 1 else 0 := by
  intro l
  induction l with
  | nil => intro _; simp
  | cons s rest ih =>
    intro h
    rw [List.map_cons, List.nodup_cons] at h
    rw [List.flatMap_cons, List.countP_append, ih h.2]
    by_cases heq : s.snapshotId = id
    · have hnr : id ∉ rest.map (·.snapshotId) := heq ▸ h.1
      simp [Ec2.snapshotCalls, List.countP_cons, List.countP_nil,
        isDeleteSnapshotOf, heq, hnr]
    · simp [Ec2.snapshotCalls, List.countP_cons, List.countP_nil,
        isDeleteSnapshotOf, heq, Ne.symm heq]

lemma ec2_front_no_snapshot_delete (env : Ec2.Env) (id : String) :
    (env.instances.flatMap (Ec2.instanceCalls false)).countP
      (isDeleteSnapshotOf id) = 0 ∧
    ((env.securityGroups.filter (fun sg => sg.groupName ≠ "default")).flatMap
        (Ec2.sgCalls false)).countP (isDeleteSnapshotOf id) = 0 ∧
    (env.addresses.flatMap (Ec2.addressCalls false)).countP
      (isDeleteSnapshotOf id) = 0 ∧
    (env.volumes.flatMap (Ec2.volumeCalls false)).countP
      (isDeleteSnapshotOf id) = 0 := by
  refine ⟨countP_flatMap_zero _ _ _ (fun i _ => by
      rw [Ec2.instanceCalls]
      split <;>
        simp [List.countP_cons, List.countP_nil, isDeleteSnapshotOf]),
    countP_flatMap_zero _ _ _ (fun sg _ => by
      simp [Ec2.sgCalls, List.countP_cons, List.countP_nil,
        isDeleteSnapshotOf]),
    countP_flatMap_zero _ _ _ (fun a _ => ?_),
    countP_flatMap_zero _ _ _ (fun v _ => by
      rw [Ec2.volumeCalls]
      split <;>
        simp [List.countP_cons, List.countP_nil, isDeleteSnapshotOf])⟩
  cases ha : a.allocationId <;>
    simp [Ec2.addressCalls, ha, List.countP_cons, List.countP_nil,
      isDeleteSnapshotOf]

lemma ec2_snapshot_delete_count (env : Ec2.Env) (id : String)
    (h : (env.snapshots.map (·.snapshotId)).Nodup) :
    (Ec2.clean env false).countP (isDeleteSnapshotOf id) =
      (if id ∈ env.snapshots.map (·.snapshotId) then 1 else 0) +
        (env.images.flatMap (·.blockDeviceMappings)).count (some id) := by
  obtain ⟨h1, h2, h3, h4⟩ := ec2_front_no_snapshot_delete env id
  rw [Ec2.clean]
  simp only [List.countP_append, List.countP_cons, h1, h2, h3, h4,
    ec2_images_snapshot_count id env.images,
    ec2_snapshots_phase_count id env.snapshots h,
    show ∀ v, isDeleteSnapshotOf id (Call.describeSecurityGroups v) = false
      from fun _ => rfl,
    show isDeleteSnapshotOf id Call.describeInstances = false from rfl,
    show isDeleteSnapshotOf id Call.describeAddresses = false from rfl,
    show isDeleteSnapshotOf id Call.describeVolumes = false from rfl,
    show isDeleteSnapshotOf id Call.getCallerIdentity = false from rfl,
    show isDeleteSnapshotOf id Call.describeSnapshots = false from rfl,
    show isDeleteSnapshotOf id Call.describeImages = false from rfl]
  simp only [Bool.false_eq_true, if_false, Nat.add_zero, Nat.zero_add]

/-- Concrete CloudFormation environment for the C8 witness. -/
def cfnEnvW : Cloudformation.Env :=
  { stackSummaries := [{ stackName := "stack-1", stackId := "sid-1",
                         stackStatus := "CREATE_COMPLETE", rootId := none,
                         resources := [] }] }

/-- C8 (amended): no cleaner retries a failed delete, and each resource
receives at most one delete call per run — proved here for CloudFormation
stacks and EC2 instance terminations under distinct identifiers — except
EBS snapshots: a snapshot receives one delete call from the
account-snapshot sweep and one more for every AMI block-device mapping
that references it after the AMI is deregistered. -/
theorem C8_delete_at_most_once_except_ami_snapshots :
    (∀ (env : Cloudformation.Env) (name : String),
        (env.stackSummaries.map (·.stackName)).Nodup →
        (Cloudformation.clean env false).countP (isDeleteStackOf name) ≤ 1) ∧
    (∀ (env : Ec2.Env) (id : String),
        (env.instances.map (·.instanceId)).Nodup →
        (Ec2.clean env false).countP (isTerminateOf id) ≤ 1) ∧
    (∀ (env : Ec2.Env) (id : String),
        (env.snapshots.map (·.snapshotId)).Nodup →
        (Ec2.clean env false).countP (isDeleteSnapshotOf id) =
          (if id ∈ env.snapshots.map (·.snapshotId) then 1 else 0) +
            (env.images.flatMap (·.blockDeviceMappings)).count (some id)) :=
  ⟨cfn_delete_stack_at_most_once, ec2_terminate_at_most_once,
   ec2_snapshot_delete_count⟩

/-- Witness: the amended C8 theorem at concrete environments. -/
theorem C8_delete_at_most_once_witness :
    (Cloudformation.clean cfnEnvW false).countP (isDeleteStackOf "stack-1") ≤ 1 ∧
    (Ec2.clean ec2EnvC8 false).countP (isTerminateOf "i-1") ≤ 1 ∧
    (Ec2.clean ec2EnvC8 false).countP (isDeleteSnapshotOf "snap-1") =
      (if "snap-1" ∈ ec2EnvC8.snapshots.map (·.snapshotId) then 1 else 0) +
        (ec2EnvC8.images.flatMap (·.blockDeviceMappings)).count
          (some "snap-1") :=
  ⟨C8_delete_at_most_once_except_ami_snapshots.1 cfnEnvW "stack-1" (by decide),
   C8_delete_at_most_once_except_ami_snapshots.2.1 ec2EnvC8 "i-1" (by decide),
   C8_delete_at_most_once_except_ami_snapshots.2.2 ec2EnvC8 "snap-1"
     (by decide)⟩

end AwsCleaner

namespace AwsCleaner

/-- Position of each VPC-cleaner call in the claimed dependency sequence
(comment block of `vpc.py`, lines 24-39): NAT gateways 0, network
interfaces 1, internet gateways 2, VPN connections 3, VPN gateways 4,
transit-gateway attachments 5, transit gateways 6, route tables (and the
VPC listing) 7, subnets 8, security groups 9, network ACLs 10, VPC
endpoints 11, peering connections 12, VPCs 13.  Calls of other cleaners
are mapped to 14 and never occur in a VPC trace. -/
def phaseOf : Call → Nat
  | .describeNatGateways | .deleteNatGateway _ => 0
  | .describeNetworkInterfaces | .deleteNetworkInterface _ => 1
  | .describeInternetGateways | .detachInternetGateway _ _
  | .deleteInternetGateway _ => 2
  | .describeVpnConnections | .deleteVpnConnection _ => 3
  | .describeVpnGateways | .detachVpnGateway _ _ | .deleteVpnGateway _ => 4
  | .describeTransitGatewayAttachments
  | .deleteTransitGatewayVpcAttachment _ => 5
  | .describeTransitGateways | .deleteTransitGateway _ => 6
  | .describeVpcs => 7
  | .describeRouteTables _ | .disassociateRouteTable _
  | .deleteRouteTable _ => 7
  | .describeSubnets _ | .deleteSubnet _ => 8
  | .describeSecurityGroups _ | .deleteSecurityGroup _ => 9
  | .describeNetworkAcls _ | .deleteNetworkAcl _ => 10
  | .describeVpcEndpoints _ | .deleteVpcEndpoints _ => 11
  | .describeVpcPeeringConnections | .deleteVpcPeeringConnection _ => 12
  | .deleteVpc _ => 13
  | _ => 14

/-- `phaseOf` with the five per-VPC resource types (route tables through
VPC endpoints, positions 7-11) collapsed into a single phase 7: the
granularity at which `vpc.py` is globally ordered even with several
VPCs. -/
def coarsePhase (c : Call) : Nat :=
  if phaseOf c ≤ 11 then min (phaseOf c) 7 else phaseOf c

/-- Concrete environment for the C3 counterexample: two VPCs, each with
one non-main route table and one subnet. -/
def vpcEnvC3 : Vpc.Env :=
  { natGateways := [], networkInterfaces := [], internetGateways := [],
    vpnConnections := [], vpnGateways := [], tgwAttachments := [],
    transitGateways := [],
    vpcs := [{ vpcId := "vpc-1", isDefault := false },
             { vpcId := "vpc-2", isDefault := false }],
    routeTables := [{ routeTableId := "rt-1", vpcId := "vpc-1",
                      associations := [] },
                    { routeTableId := "rt-2", vpcId := "vpc-2",
                      associations := [] }],
    subnets := [{ subnetId := "sub-1", vpcId := "vpc-1" },
                { subnetId := "sub-2", vpcId := "vpc-2" }],
    securityGroups := [], networkAcls := [], vpcEndpoints := [],
    peeringConnections := [] }

/-- C3 counterexample: with two VPCs the per-VPC block runs once per VPC,
so the subnet of the first VPC is deleted before the route table of the
second VPC — the trace's phase sequence drops from 8 back to 7 and the
claimed global resource-type order is violated. -/
theorem C3_counterexample_two_vpcs_interleave :
    ((Vpc.clean vpcEnvC3 false).map phaseOf =
      [0, 1, 2, 3, 4, 5, 6, 7, 7, 7, 8, 8, 9, 10, 11,
       7, 7, 8, 8, 9, 10, 11, 12, 13, 13]) ∧
    ¬ ((Vpc.clean vpcEnvC3 false).map phaseOf).Pairwise (· ≤ ·) := by
  decide

end AwsCleaner

namespace AwsCleaner

lemma pairwise_map_const (f : Call → Nat) (k : Nat) :
    ∀ a : List Call, (∀ c ∈ a, f c = k) → (a.map f).Pairwise (· ≤ ·) := by
  intro a
  induction a with
  | nil => intro _; simp
  | cons c rest ih =>
    intro h
    rw [List.map_cons, List.pairwise_cons]
    refine ⟨?_, ih (fun x hx => h x (List.mem_cons_of_mem c hx))⟩
    rintro y hy
    rcases List.mem_map.mp hy with ⟨x, hx, rfl⟩
    rw [h c (List.mem_cons_self c rest), h x (List.mem_cons_of_mem c hx)]

lemma pairwise_step_items (f : Call → Nat) (k : Nat) (items rest : List Call)
    (hitems : ∀ c ∈ items, f c = k)
    (hrest : (rest.map f).Pairwise (· ≤ ·))
    (hlb : ∀ c ∈ rest, k ≤ f c) :
    ((items ++ rest).map f).Pairwise (· ≤ ·) ∧
      ∀ c ∈ items ++ rest, k ≤ f c := by
  constructor
  · rw [List.map_append]
    refine List.pairwise_append.mpr
      ⟨pairwise_map_const f k items hitems, hrest, ?_⟩
    rintro u hu v hv
    rcases List.mem_map.mp hu with ⟨c, hc, rfl⟩
    rcases List.mem_map.mp hv with ⟨c', hc', rfl⟩
    rw [hitems c hc]
    exact hlb c' hc'
  · intro c hc
    rcases List.mem_append.mp hc with h | h
    · exact (hitems c h).ge
    · exact hlb c h

lemma pairwise_step (f : Call → Nat) (k : Nat) (head : Call)
    (items rest : List Call)
    (hhead : f head = k) (hitems : ∀ c ∈ items, f c = k)
    (hrest : (rest.map f).Pairwise (· ≤ ·))
    (hlb : ∀ c ∈ rest, k ≤ f c) :
    ((head :: (items ++ rest)).map f).Pairwise (· ≤ ·) ∧
      ∀ c ∈ head :: (items ++ rest), k ≤ f c := by
  obtain ⟨h1, h2⟩ := pairwise_step_items f k items rest hitems hrest hlb
  constructor
  · rw [List.map_cons, List.pairwise_cons]
    refine ⟨?_, h1⟩
    rintro y hy
    rcases List.mem_map.mp hy with ⟨c, hc, rfl⟩
    rw [hhead]
    exact h2 c hc
  · intro c hc
    rcases List.mem_cons.mp hc with rfl | hc
    · exact hhead.ge
    · exact h2 c hc

end AwsCleaner

namespace AwsCleaner

lemma phase_flatMap {α : Type} (f : Call → Nat) (g : α → List Call)
    (l : List α) (k : Nat) (h : ∀ x, ∀ c ∈ g x, f c = k) :
    ∀ c ∈ l.flatMap g, f c = k := by
  intro c hc
  rcases List.mem_flatMap.mp hc with ⟨x, -, hx⟩
  exact h x c hx

lemma phase_natCalls (d : Bool) (nat : Vpc.NatGateway) :
    ∀ c ∈ Vpc.natCalls d nat, phaseOf c = 0 := by
  intro c hc
  rw [Vpc.natCalls] at hc
  split at hc
  · simp at hc
  · split at hc
    · simp at hc
    · simp only [List.mem_singleton] at hc
      subst hc
      rfl

lemma phase_eniCalls (d : Bool) (eni : Vpc.NetworkInterface) :
    ∀ c ∈ Vpc.eniCalls d eni, phaseOf c = 1 := by
  intro c hc
  rw [Vpc.eniCalls] at hc
  split at hc
  · simp at hc
  · split at hc
    · simp at hc
    · simp only [List.mem_singleton] at hc
      subst hc
      rfl

lemma phase_igwCalls (d : Bool) (igw : Vpc.InternetGateway) :
    ∀ c ∈ Vpc.igwCalls d igw, phaseOf c = 2 := by
  intro c hc
  rw [Vpc.igwCalls] at hc
  split at hc
  · simp at hc
  · rcases List.mem_append.mp hc with h | h
    · rcases List.mem_filterMap.mp h with ⟨att, -, hatt⟩
      rcases hv : att.vpcId with _ | v <;> rw [hv] at hatt
      · simp at hatt
      · have : c = Call.detachInternetGateway igw.internetGatewayId v := by
          simpa using hatt.symm
        subst this
        rfl
    · simp only [List.mem_singleton] at h
      subst h
      rfl

lemma phase_vpnConnCalls (d : Bool) (vpn : Vpc.VpnConnection) :
    ∀ c ∈ Vpc.vpnConnCalls d vpn, phaseOf c = 3 := by
  intro c hc
  rw [Vpc.vpnConnCalls] at hc
  split at hc
  · simp at hc
  · split at hc
    · simp at hc
    · simp only [List.mem_singleton] at hc
      subst hc
      rfl

lemma phase_vgwCalls (d : Bool) (vgw : Vpc.VpnGateway) :
    ∀ c ∈ Vpc.vgwCalls d vgw, phaseOf c = 4 := by
  intro c hc
  rw [Vpc.vgwCalls] at hc
  split at hc
  · simp at hc
  · split at hc
    · simp at hc
    · rcases List.mem_append.mp hc with h | h
      · rcases List.mem_filterMap.mp h with ⟨att, -, hatt⟩
        rcases hv : att.vpcId with _ | v <;> rw [hv] at hatt
        · simp at hatt
        · simp only [Option.ite_none_right_eq_some, Option.some_inj] at hatt
          rw [← hatt.2]
          rfl
      · simp only [List.mem_singleton] at h
        subst h
        rfl

lemma phase_tgwAttCalls (d : Bool) (att : Vpc.TgwAttachment) :
    ∀ c ∈ Vpc.tgwAttCalls d att, phaseOf c = 5 := by
  intro c hc
  rw [Vpc.tgwAttCalls] at hc
  split at hc
  · simp at hc
  · split at hc
    · simp at hc
    · simp only [List.mem_singleton] at hc
      subst hc
      rfl

lemma phase_tgwCalls (d : Bool) (tgw : Vpc.TransitGateway) :
    ∀ c ∈ Vpc.tgwCalls d tgw, phaseOf c = 6 := by
  intro c hc
  rw [Vpc.tgwCalls] at hc
  split at hc
  · simp at hc
  · split at hc
    · simp at hc
    · simp only [List.mem_singleton] at hc
      subst hc
      rfl

lemma phase_rtCalls (d : Bool) (rt : Vpc.RouteTable) :
    ∀ c ∈ Vpc.rtCalls d rt, phaseOf c = 7 := by
  intro c hc
  rw [Vpc.rtCalls] at hc
  split at hc
  · simp at hc
  · split at hc
    · simp at hc
    · rcases List.mem_append.mp hc with h | h
      · rcases List.mem_filterMap.mp h with ⟨a, -, ha⟩
        split at ha
        · have : c = Call.disassociateRouteTable a.routeTableAssociationId := by
            simpa using ha.symm
          subst this
          rfl
        · simp at ha
      · simp only [List.mem_singleton] at h
        subst h
        rfl

lemma phase_subnetCalls (d : Bool) (s : Vpc.Subnet) :
    ∀ c ∈ Vpc.subnetCalls d s, phaseOf c = 8 := by
  intro c hc
  rw [Vpc.subnetCalls] at hc
  split at hc
  · simp at hc
  · simp only [List.mem_singleton] at hc
    subst hc
    rfl

lemma phase_sgCalls (d : Bool) (sg : Vpc.SecurityGroup) :
    ∀ c ∈ Vpc.sgCalls d sg, phaseOf c = 9 := by
  intro c hc
  rw [Vpc.sgCalls] at hc
  split at hc
  · simp at hc
  · split at hc
    · simp at hc
    · simp only [List.mem_singleton] at hc
      subst hc
      rfl

lemma phase_naclCalls (d : Bool) (acl : Vpc.NetworkAcl) :
    ∀ c ∈ Vpc.naclCalls d acl, phaseOf c = 10 := by
  intro c hc
  rw [Vpc.naclCalls] at hc
  split at hc
  · simp at hc
  · split at hc
    · simp at hc
    · simp only [List.mem_singleton] at hc
      subst hc
      rfl

lemma phase_epCalls (d : Bool) (ep : Vpc.VpcEndpoint) :
    ∀ c ∈ Vpc.epCalls d ep, phaseOf c = 11 := by
  intro c hc
  rw [Vpc.epCalls] at hc
  split at hc
  · simp at hc
  · simp only [List.mem_singleton] at hc
    subst hc
    rfl

lemma phase_peerCalls (d : Bool) (p : Vpc.PeeringConnection) :
    ∀ c ∈ Vpc.peerCalls d p, phaseOf c = 12 := by
  intro c hc
  rw [Vpc.peerCalls] at hc
  split at hc
  · simp at hc
  · split at hc
    · simp at hc
    · simp only [List.mem_singleton] at hc
      subst hc
      rfl

lemma phase_vpcDeleteCalls (d : Bool) (v : Vpc.VpcInfo) :
    ∀ c ∈ Vpc.vpcDeleteCalls d v, phaseOf c = 13 := by
  intro c hc
  rw [Vpc.vpcDeleteCalls] at hc
  split at hc
  · simp at hc
  · split at hc
    · simp at hc
    · simp only [List.mem_singleton] at hc
      subst hc
      rfl

lemma coarse_of_phase_le7 (c : Call) (h : phaseOf c ≤ 7) :
    coarsePhase c = phaseOf c := by
  rw [coarsePhase, if_pos (by omega)]
  omega

lemma coarse_of_phase_between (c : Call) (h7 : 7 ≤ phaseOf c)
    (h11 : phaseOf c ≤ 11) : coarsePhase c = 7 := by
  rw [coarsePhase, if_pos h11]
  omega

lemma coarse_of_phase_ge12 (c : Call) (h : 12 ≤ phaseOf c) :
    coarsePhase c = phaseOf c := by
  rw [coarsePhase, if_neg (by omega)]

end AwsCleaner

namespace AwsCleaner

lemma perVpc_coarse (env : Vpc.Env) (d : Bool) (v : Vpc.VpcInfo) :
    ∀ c ∈ Vpc.perVpcCalls env d v, coarsePhase c = 7 := by
  intro c hc
  rw [Vpc.perVpcCalls] at hc
  simp only [List.append_assoc, List.cons_append] at hc
  rcases List.mem_cons.mp hc with rfl | hc
  · rfl
  rcases List.mem_append.mp hc with h | hc
  · have hp := phase_flatMap phaseOf _ _ 7 (phase_rtCalls d) c h
    exact coarse_of_phase_between c (by omega) (by omega)
  rcases List.mem_cons.mp hc with rfl | hc
  · rfl
  rcases List.mem_append.mp hc with h | hc
  · have hp := phase_flatMap phaseOf _ _ 8 (phase_subnetCalls d) c h
    exact coarse_of_phase_between c (by omega) (by omega)
  rcases List.mem_cons.mp hc with rfl | hc
  · rfl
  rcases List.mem_append.mp hc with h | hc
  · have hp := phase_flatMap phaseOf _ _ 9 (phase_sgCalls d) c h
    exact coarse_of_phase_between c (by omega) (by omega)
  rcases List.mem_cons.mp hc with rfl | hc
  · rfl
  rcases List.mem_append.mp hc with h | hc
  · have hp := phase_flatMap phaseOf _ _ 10 (phase_naclCalls d) c h
    exact coarse_of_phase_between c (by omega) (by omega)
  rcases List.mem_cons.mp hc with rfl | hc
  · rfl
  · have hp := phase_flatMap phaseOf _ _ 11 (phase_epCalls d) c hc
    exact coarse_of_phase_between c (by omega) (by omega)

lemma vpc_section_coarse (env : Vpc.Env) (d : Bool) :
    ((Vpc.vpcSection env d).map coarsePhase).Pairwise (· ≤ ·) ∧
      ∀ c ∈ Vpc.vpcSection env d, 7 ≤ coarsePhase c := by
  rw [Vpc.vpcSection]
  by_cases hvac : env.vpcs.isEmpty
  · rw [if_pos hvac]
    constructor
    · simp
    · intro c hc
      rcases List.mem_cons.mp hc with rfl | hc
      · exact Nat.le_refl 7
      · simp at hc
  · rw [if_neg hvac]
    simp only [List.append_assoc, List.cons_append]
    have hdel : ∀ c ∈ env.vpcs.flatMap (Vpc.vpcDeleteCalls d),
        coarsePhase c = 13 :=
      phase_flatMap _ _ _ _ (fun w c hc => by
        have hp := phase_vpcDeleteCalls d w c hc
        rw [coarse_of_phase_ge12 c (by omega), hp])
    have hpeer : ∀ c ∈ env.peeringConnections.flatMap (Vpc.peerCalls d),
        coarsePhase c = 12 :=
      phase_flatMap _ _ _ _ (fun p c hc => by
        have hp := phase_peerCalls d p c hc
        rw [coarse_of_phase_ge12 c (by omega), hp])
    have h12 := pairwise_step coarsePhase 12 Call.describeVpcPeeringConnections
      (env.peeringConnections.flatMap (Vpc.peerCalls d))
      (env.vpcs.flatMap (Vpc.vpcDeleteCalls d)) rfl hpeer
      (pairwise_map_const _ 13 _ hdel)
      (fun c hc => by have := hdel c hc; omega)
    have h7 := pairwise_step coarsePhase 7 Call.describeVpcs
      (env.vpcs.flatMap (Vpc.perVpcCalls env d))
      (Call.describeVpcPeeringConnections ::
        (env.peeringConnections.flatMap (Vpc.peerCalls d) ++
          env.vpcs.flatMap (Vpc.vpcDeleteCalls d))) rfl
      (phase_flatMap _ _ _ _ (perVpc_coarse env d)) h12.1
      (fun c hc => Nat.le_trans (by omega) (h12.2 c hc))
    exact h7

end AwsCleaner

namespace AwsCleaner

lemma vpc_section_fine (env : Vpc.Env) (d : Bool)
    (hv : env.vpcs.length ≤ 1) :
    ((Vpc.vpcSection env d).map phaseOf).Pairwise (· ≤ ·) ∧
      ∀ c ∈ Vpc.vpcSection env d, 7 ≤ phaseOf c := by
  rw [Vpc.vpcSection]
  by_cases hvac : env.vpcs.isEmpty
  · rw [if_pos hvac]
    constructor
    · simp
    · intro c hc
      rcases List.mem_cons.mp hc with rfl | hc
      · exact Nat.le_refl 7
      · simp at hc
  · rw [if_neg hvac]
    rcases henv : env.vpcs with _ | ⟨v, rest⟩
    · simp only [List.isEmpty_iff] at hvac
      exact absurd henv hvac
    · have hrest : rest = [] := by
        rw [henv] at hv
        simp only [List.length_cons] at hv
        exact List.length_eq_zero.mp (by omega)
      subst hrest
      simp only [List.flatMap_cons, List.flatMap_nil, List.append_nil]
      rw [Vpc.perVpcCalls]
      simp only [List.append_assoc, List.cons_append]
      have h12 := pairwise_step phaseOf 12 Call.describeVpcPeeringConnections
        (env.peeringConnections.flatMap (Vpc.peerCalls d))
        (Vpc.vpcDeleteCalls d v) rfl
        (phase_flatMap _ _ _ _ (phase_peerCalls d))
        (pairwise_map_const _ 13 _ (phase_vpcDeleteCalls d v))
        (fun c hc => by have := phase_vpcDeleteCalls d v c hc; omega)
      have h11 := pairwise_step phaseOf 11 (Call.describeVpcEndpoints v.vpcId)
        ((env.vpcEndpoints.filter (fun ep => ep.vpcId == v.vpcId)).flatMap
          (Vpc.epCalls d)) _ rfl
        (phase_flatMap _ _ _ _ (phase_epCalls d)) h12.1
        (fun c hc => Nat.le_trans (by omega) (h12.2 c hc))
      have h10 := pairwise_step phaseOf 10 (Call.describeNetworkAcls v.vpcId)
        ((env.networkAcls.filter (fun acl => acl.vpcId == v.vpcId)).flatMap
          (Vpc.naclCalls d)) _ rfl
        (phase_flatMap _ _ _ _ (phase_naclCalls d)) h11.1
        (fun c hc => Nat.le_trans (by omega) (h11.2 c hc))
      have h9 := pairwise_step phaseOf 9
        (Call.describeSecurityGroups (some v.vpcId))
        ((env.securityGroups.filter (fun sg => sg.vpcId == v.vpcId)).flatMap
          (Vpc.sgCalls d)) _ rfl
        (phase_flatMap _ _ _ _ (phase_sgCalls d)) h10.1
        (fun c hc => Nat.le_trans (by omega) (h10.2 c hc))
      have h8 := pairwise_step phaseOf 8 (Call.describeSubnets v.vpcId)
        ((env.subnets.filter (fun s => s.vpcId == v.vpcId)).flatMap
          (Vpc.subnetCalls d)) _ rfl
        (phase_flatMap _ _ _ _ (phase_subnetCalls d)) h9.1
        (fun c hc => Nat.le_trans (by omega) (h9.2 c hc))
      have h7 := pairwise_step phaseOf 7 (Call.describeRouteTables v.vpcId)
        ((env.routeTables.filter (fun rt => rt.vpcId == v.vpcId)).flatMap
          (Vpc.rtCalls d)) _ rfl
        (phase_flatMap _ _ _ _ (phase_rtCalls d)) h8.1
        (fun c hc => Nat.le_trans (by omega) (h8.2 c hc))
      have hsec := pairwise_step phaseOf 7 Call.describeVpcs [] _ rfl
        (by simp) h7.1 (fun c hc => h7.2 c hc)
      exact ⟨hsec.1, hsec.2⟩

end AwsCleaner

namespace AwsCleaner

/-- C3 (amended): the VPC cleaner's trace is ordered by the declared
dependency sequence at the granularity the code implements: the seven
global phases (NAT gateways, network interfaces, internet gateways, VPN
connections, VPN gateways, transit-gateway attachments, transit
gateways) run in order before all per-VPC processing, which precedes
peering connections, which precede the final VPC deletions
(`coarsePhase` monotone for every environment); inside the per-VPC block
each VPC is processed route tables → subnets → security groups → network
ACLs → VPC endpoints, so with at most one VPC the full claimed sequence
holds exactly (`phaseOf` monotone).  With several VPCs the per-VPC
blocks interleave resource types (see the counterexample). -/
theorem C3_vpc_order_coarse_always_fine_single_vpc :
    (∀ (env : Vpc.Env) (d : Bool),
        ((Vpc.clean env d).map coarsePhase).Pairwise (· ≤ ·)) ∧
    (∀ (env : Vpc.Env) (d : Bool), env.vpcs.length ≤ 1 →
        ((Vpc.clean env d).map phaseOf).Pairwise (· ≤ ·)) := by
  constructor
  · intro env d
    rw [Vpc.clean]
    simp only [List.append_assoc, List.cons_append]
    have s := vpc_section_coarse env d
    have h6 := pairwise_step coarsePhase 6 Call.describeTransitGateways
      (env.transitGateways.flatMap (Vpc.tgwCalls d)) (Vpc.vpcSection env d)
      rfl
      (phase_flatMap _ _ _ _ (fun x c hc => by
        have hp := phase_tgwCalls d x c hc
        rw [coarse_of_phase_le7 c (by omega), hp]))
      s.1 (fun c hc => Nat.le_trans (by omega) (s.2 c hc))
    have h5 := pairwise_step coarsePhase 5
      Call.describeTransitGatewayAttachments
      (env.tgwAttachments.flatMap (Vpc.tgwAttCalls d)) _ rfl
      (phase_flatMap _ _ _ _ (fun x c hc => by
        have hp := phase_tgwAttCalls d x c hc
        rw [coarse_of_phase_le7 c (by omega), hp]))
      h6.1 (fun c hc => Nat.le_trans (by omega) (h6.2 c hc))
    have h4 := pairwise_step coarsePhase 4 Call.describeVpnGateways
      (env.vpnGateways.flatMap (Vpc.vgwCalls d)) _ rfl
      (phase_flatMap _ _ _ _ (fun x c hc => by
        have hp := phase_vgwCalls d x c hc
        rw [coarse_of_phase_le7 c (by omega), hp]))
      h5.1 (fun c hc => Nat.le_trans (by omega) (h5.2 c hc))
    have h3 := pairwise_step coarsePhase 3 Call.describeVpnConnections
      (env.vpnConnections.flatMap (Vpc.vpnConnCalls d)) _ rfl
      (phase_flatMap _ _ _ _ (fun x c hc => by
        have hp := phase_vpnConnCalls d x c hc
        rw [coarse_of_phase_le7 c (by omega), hp]))
      h4.1 (fun c hc => Nat.le_trans (by omega) (h4.2 c hc))
    have h2 := pairwise_step coarsePhase 2 Call.describeInternetGateways
      (env.internetGateways.flatMap (Vpc.igwCalls d)) _ rfl
      (phase_flatMap _ _ _ _ (fun x c hc => by
        have hp := phase_igwCalls d x c hc
        rw [coarse_of_phase_le7 c (by omega), hp]))
      h3.1 (fun c hc => Nat.le_trans (by omega) (h3.2 c hc))
    have h1 := pairwise_step coarsePhase 1 Call.describeNetworkInterfaces
      (env.networkInterfaces.flatMap (Vpc.eniCalls d)) _ rfl
      (phase_flatMap _ _ _ _ (fun x c hc => by
        have hp := phase_eniCalls d x c hc
        rw [coarse_of_phase_le7 c (by omega), hp]))
      h2.1 (fun c hc => Nat.le_trans (by omega) (h2.2 c hc))
    have h0 := pairwise_step coarsePhase 0 Call.describeNatGateways
      (env.natGateways.flatMap (Vpc.natCalls d)) _ rfl
      (phase_flatMap _ _ _ _ (fun x c hc => by
        have hp := phase_natCalls d x c hc
        rw [coarse_of_phase_le7 c (by omega), hp]))
      h1.1 (fun c hc => Nat.le_trans (by omega) (h1.2 c hc))
    exact h0.1
  · intro env d hv
    rw [Vpc.clean]
    simp only [List.append_assoc, List.cons_append]
    have s := vpc_section_fine env d hv
    have h6 := pairwise_step phaseOf 6 Call.describeTransitGateways
      (env.transitGateways.flatMap (Vpc.tgwCalls d)) (Vpc.vpcSection env d)
      rfl (phase_flatMap _ _ _ _ (phase_tgwCalls d))
      s.1 (fun c hc => Nat.le_trans (by omega) (s.2 c hc))
    have h5 := pairwise_step phaseOf 5 Call.describeTransitGatewayAttachments
      (env.tgwAttachments.flatMap (Vpc.tgwAttCalls d)) _ rfl
      (phase_flatMap _ _ _ _ (phase_tgwAttCalls d))
      h6.1 (fun c hc => Nat.le_trans (by omega) (h6.2 c hc))
    have h4 := pairwise_step phaseOf 4 Call.describeVpnGateways
      (env.vpnGateways.flatMap (Vpc.vgwCalls d)) _ rfl
      (phase_flatMap _ _ _ _ (phase_vgwCalls d))
      h5.1 (fun c hc => Nat.le_trans (by omega) (h5.2 c hc))
    have h3 := pairwise_step phaseOf 3 Call.describeVpnConnections
      (env.vpnConnections.flatMap (Vpc.vpnConnCalls d)) _ rfl
      (phase_flatMap _ _ _ _ (phase_vpnConnCalls d))
      h4.1 (fun c hc => Nat.le_trans (by omega) (h4.2 c hc))
    have h2 := pairwise_step phaseOf 2 Call.describeInternetGateways
      (env.internetGateways.flatMap (Vpc.igwCalls d)) _ rfl
      (phase_flatMap _ _ _ _ (phase_igwCalls d))
      h3.1 (fun c hc => Nat.le_trans (by omega) (h3.2 c hc))
    have h1 := pairwise_step phaseOf 1 Call.describeNetworkInterfaces
      (env.networkInterfaces.flatMap (Vpc.eniCalls d)) _ rfl
      (phase_flatMap _ _ _ _ (phase_eniCalls d))
      h2.1 (fun c hc => Nat.le_trans (by omega) (h2.2 c hc))
    have h0 := pairwise_step phaseOf 0 Call.describeNatGateways
      (env.natGateways.flatMap (Vpc.natCalls d)) _ rfl
      (phase_flatMap _ _ _ _ (phase_natCalls d))
      h1.1 (fun c hc => Nat.le_trans (by omega) (h1.2 c hc))
    exact h0.1

/-- Witness: the amended C3 theorem at a concrete single-VPC live run. -/
theorem C3_vpc_order_witness :
    ((Vpc.clean vpcEnvW false).map phaseOf).Pairwise (· ≤ ·) :=
  C3_vpc_order_coarse_always_fine_single_vpc.2 vpcEnvW false (by decide)

end AwsCleaner
